import Mathlib

/-!
Verification development for the G.723.1 speech decoder
(src/libavcodec/g723_1.c).  The decoder pipeline is shallowly embedded:
C `int16_t` buffers become `List Int` with explicit 16-bit truncation on
stores where overflow is possible, C `int` arithmetic becomes `Int` with
explicit 32-bit wrapping (`i32`) where an expression can exceed the
machine range, and arithmetic right shifts become flooring division.
The read-only data tables live in g723_1_data.h, which is not part of
the sources; they are taken as parameters (structure `Tables`).
-/

set_option maxHeartbeats 2000000
set_option maxRecDepth 16384

namespace G7231

/-! ### Constants (g723_1_data.h / spec section 3) -/

def FRAME_LEN : Nat := 240
def SUBFRAME_LEN : Nat := 60
def SUBFRAMES : Nat := 4
def LPC_ORDER : Nat := 10
def PITCH_MAX : Nat := 145
def PITCH_MIN : Nat := 18
def GRID_SIZE : Nat := 2
def PULSE_MAX : Nat := 6
def GAIN_LEVELS : Nat := 24
def PITCH_ORDER : Nat := 5
def CNG_RANDOM_SEED : Int := 12345

/-- Required packet sizes indexed by dec_mode: frame_size[4] = {24, 20, 4, 1}. -/
def frame_size (m : Nat) : Nat := [24, 20, 4, 1].getD m 0

/-! ### Fixed-point primitives -/

/-- av_clip_int16: saturate to the 16-bit signed range. -/
def clip_int16 (x : Int) : Int := max (-32768) (min 32767 x)

/-- av_clipl_int32: saturate to the 32-bit signed range. -/
def clip_int32 (x : Int) : Int := max (-(2 ^ 31)) (min (2 ^ 31 - 1) x)

/-- av_sat_add32: 32-bit saturating addition. -/
def av_sat_add32 (a b : Int) : Int := clip_int32 (a + b)

/-- av_sat_dadd32: a + 2b computed as sat32(sat32(a + b) + b). -/
def av_sat_dadd32 (a b : Int) : Int := clip_int32 (clip_int32 (a + b) + b)

/-- Truncation of an `int` value on a store into an `int16_t` slot
(two's-complement wrap-around). -/
def i16 (x : Int) : Int := Int.emod (x + 32768) 65536 - 32768

/-- Two's-complement wrap-around of a C `int` (32-bit) expression. -/
def i32 (x : Int) : Int := Int.emod (x + 2 ^ 31) (2 ^ 32) - 2 ^ 31

/-- Arithmetic right shift of a signed C int (flooring division). -/
def asr (x : Int) (n : Nat) : Int := Int.fdiv x (2 ^ n)

/-- av_clip(x, lo, hi). -/
def av_clip (x lo hi : Int) : Int := max lo (min hi x)

/-- Modelled from the spec: av_log2 (libavutil, not in src/) returns the
position of the highest set bit, and 0 for input 0. -/
def av_log2 (n : Int) : Int := (Nat.log2 n.toNat : Int)

/-- normalize_bits: number of left shifts required for normalization. -/
def normalize_bits (num : Int) (width : Int) : Int := width - av_log2 num - 1

/-- Read element of an int16 buffer at a possibly negative index
(out-of-range reads yield 0). -/
def readI (l : List Int) (i : Int) : Int := if i < 0 then 0 else l.getD i.toNat 0

/-- Contiguous segment of a buffer starting at a possibly negative offset. -/
def segI (l : List Int) (off : Int) (len : Nat) : List Int :=
  (List.range len).map (fun k => readI l (off + k))

/-- Splice: overwrite l[off .. off+repl.length) with repl. -/
def splice (l : List Int) (off : Nat) (repl : List Int) : List Int :=
  l.take off ++ repl ++ l.drop (off + repl.length)

/-! ### square_root (g723_1.c lines 250-263) -/

/-- One refinement pass per unit of fuel: 14 passes with exp running from
0x4000 down to 2. -/
def sqrtLoop : Nat → Int → Int → Int → Int
  | 0, _, res, _ => res
  | n + 1, val, res, exp =>
      let res_exp := res + exp
      let res' := if val ≥ res_exp * res_exp * 2 then res + exp else res
      sqrtLoop n val res' (asr exp 1)

/-- Bitexact implementation of sqrt(val/2) from the source: 14 binary
refinement steps starting at exp = 0x4000. -/
def square_root (val : Int) : Int := sqrtLoop 14 val 0 0x4000

/-! ### Data model -/

/-- Modelled from the spec: the read-only tables of g723_1_data.h are not
part of src/; only their shapes are known (spec section 6), so their
numeric contents are abstract parameters of the whole development. -/
structure Tables where
  dc_lsp : Nat → Int
  lsp_band0 : Nat → Nat → Int
  lsp_band1 : Nat → Nat → Int
  lsp_band2 : Nat → Nat → Int
  cos_tab : Int → Int
  fixed_cb_gain : Int → Int
  adaptive_cb_gain85 : Int → Int
  adaptive_cb_gain170 : Int → Int
  pitch_contrib : Int → Int
  max_pos : Nat → Int
  combinatorial_table : Nat → Nat → Int
  pulses : Nat → Nat
  postfilter_tbl0 : Nat → Int
  postfilter_tbl1 : Nat → Int
  ppf_gain_weight : Nat → Int
  cng_filt0 : Int
  cng_bseg : Nat → Int
  cng_adaptive_cb_lag : Nat → Int

/-- G723.1 unpacked data subframe (struct G723_1_Subframe). -/
structure Subfrm where
  ad_cb_lag : Int
  ad_cb_gain : Int
  dirac_train : Int
  pulse_sign : Int
  grid_index : Int
  amp_index : Int
  pulse_pos : Int

def Subfrm.zero : Subfrm := ⟨0, 0, 0, 0, 0, 0, 0⟩

def subfrmGet (l : List Subfrm) (i : Nat) : Subfrm := l.getD i Subfrm.zero

/-- G723.1 frame types (enum FrameType). -/
inductive FrameType where
  | active
  | sid
  | untransmitted
deriving DecidableEq, Repr

/-- Bitrates (enum Rate). -/
inductive Rate where
  | r6300
  | r5300
deriving DecidableEq, Repr

/-- Persistent decoder context (struct g723_1_context).  The scratch
buffers excitation (PITCH_MAX+FRAME_LEN+4 entries) and audio
(FRAME_LEN+LPC_ORDER+PITCH_MAX+4 entries) are part of the struct and
survive across frames. -/
structure Ctx where
  subframe : List Subfrm
  cur_frame_type : FrameType
  past_frame_type : FrameType
  cur_rate : Rate
  lsp_index : List Nat
  pitch_lag : List Int
  erased_frames : Nat
  prev_lsp : List Int
  sid_lsp : List Int
  prev_excitation : List Int
  excitation : List Int
  synth_mem : List Int
  fir_mem : List Int
  iir_mem : List Int
  random_seed : Int
  cng_random_seed : Int
  interp_index : Int
  interp_gain : Int
  sid_gain : Int
  cur_gain : Int
  reflection_coef : Int
  pf_gain : Int
  postfilter : Bool
  audio : List Int

/-! ### Bitstream reader (BITSTREAM_READER_LE) -/

/-- Bit i of the little-endian bitstream: bit (i mod 8) of byte (i div 8);
reads past the end of the packet yield 0. -/
def getBitLE (buf : List Nat) (i : Nat) : Nat := (buf.getD (i / 8) 0 >>> (i % 8)) &&& 1

/-- Value of the n bits starting at position pos, assembled LSB first
(get_bits of the sequential reader; all read positions in
unpack_bitstream are static, so each call site carries its offset). -/
def readBits (buf : List Nat) (pos n : Nat) : Nat :=
  (List.range n).foldl (fun acc j => acc + (getBitLE buf (pos + j) <<< j)) 0

/-! ### unpack_bitstream (g723_1.c lines 135-245) -/

/-- The fields of the context mutated by unpack_bitstream, plus the
success flag (the C function returns -1 on a forbidden pitch lag or an
out-of-range gain and leaves the already written fields in place). -/
structure UnpackOut where
  lsp_index : List Nat
  pitch_lag : List Int
  subframe : List Subfrm
  cur_frame_type : FrameType
  cur_rate : Rate
  ok : Bool

/-- Decoding of one 12-bit combined gain field (the body of the gain loop
at lines 181-198): when the rate is 6300 and the half-frame pitch lag is
below SUBFRAME_LEN-2 = 58 the top bit is consumed as dirac_train, the
field is masked to 11 bits and the 85-entry table applies, otherwise the
170-entry table applies; the quotient by GAIN_LEVELS = 24 must be below
the table length, the remainder is the amplitude index. -/
def decodeGain (rate : Rate) (lag : Int) (temp : Nat) (sub : Subfrm) : Subfrm × Bool :=
  let use85 : Bool := rate = Rate.r6300 ∧ lag < (SUBFRAME_LEN : Int) - 2
  let dirac : Int := if use85 then (temp >>> 11 : Nat) else 0
  let temp' : Nat := if use85 then temp &&& 0x7FF else temp
  let ad_cb_len : Int := if use85 then 85 else 170
  let gain : Int := ((temp' / GAIN_LEVELS : Nat) : Int)
  let sub := { sub with dirac_train := dirac, ad_cb_gain := gain }
  if gain < ad_cb_len then
    ({ sub with amp_index := ((temp' % GAIN_LEVELS : Nat) : Int) }, true)
  else
    (sub, false)

/-- Update field i (0..3) of the subframe array. -/
def setSub (l : List Subfrm) (i : Nat) (f : Subfrm → Subfrm) : List Subfrm :=
  l.set i (f (subfrmGet l i))

/-- Pitch lags and odd-subframe adaptive-codebook lags (bits 26-43);
pitch_lag[k] is stored before the forbidden-code test, exactly as the
source assigns it before returning -1. -/
def unpackLags (buf : List Nat) (u : UnpackOut) : UnpackOut :=
  let pl0 := readBits buf 26 7
  let u := { u with pitch_lag := [(pl0 : Int), u.pitch_lag.getD 1 0] }
  if pl0 > 123 then { u with ok := false } else
  let u := { u with pitch_lag := [(pl0 : Int) + (PITCH_MIN : Int), u.pitch_lag.getD 1 0],
                    subframe := setSub u.subframe 1 (fun s => { s with ad_cb_lag := (readBits buf 33 2 : Nat) }) }
  let pl1 := readBits buf 35 7
  let u := { u with pitch_lag := [u.pitch_lag.getD 0 0, (pl1 : Int)] }
  if pl1 > 123 then { u with ok := false } else
  let u := { u with pitch_lag := [u.pitch_lag.getD 0 0, (pl1 : Int) + (PITCH_MIN : Int)],
                    subframe := setSub u.subframe 3 (fun s => { s with ad_cb_lag := (readBits buf 42 2 : Nat) }) }
  let u := { u with subframe := setSub u.subframe 0 (fun s => { s with ad_cb_lag := 1 }) }
  { u with subframe := setSub u.subframe 2 (fun s => { s with ad_cb_lag := 1 }) }

/-- One iteration of the combined-gain loop for subframe i (12 bits at
position 44 + 12 i). -/
def unpackGainStep (buf : List Nat) (i : Nat) (u : UnpackOut) : UnpackOut :=
  if u.ok then
    let r := decodeGain u.cur_rate (u.pitch_lag.getD (i / 2) 0) (readBits buf (44 + 12 * i) 12)
               (subfrmGet u.subframe i)
    { u with subframe := u.subframe.set i r.1, ok := r.2 }
  else u

/-- Rate-specific pulse data.  R6300: a reserved bit at 96, a 13-bit
combined position code at 97 split by 810/90/9, extension bits of widths
16/14/16/14, then sign fields of widths 6/5/6/5.  R5300: four 12-bit
pulse positions and four 4-bit sign fields. -/
def unpackPulses (buf : List Nat) (u : UnpackOut) : UnpackOut :=
  if u.cur_rate = .r6300 then
    let t13 := readBits buf 97 13
    let pp0 := t13 / 810
    let rem0 := t13 - pp0 * 810
    let pp1 := rem0 / 90
    let rem1 := rem0 - pp1 * 90
    let pp2 := rem1 / 9
    let pp3 := rem1 - pp2 * 9
    let u := { u with subframe := setSub u.subframe 0 (fun s => { s with
                 pulse_pos := (((pp0 <<< 16) + readBits buf 110 16 : Nat) : Int),
                 pulse_sign := (readBits buf 170 6 : Nat) }) }
    let u := { u with subframe := setSub u.subframe 1 (fun s => { s with
                 pulse_pos := (((pp1 <<< 14) + readBits buf 126 14 : Nat) : Int),
                 pulse_sign := (readBits buf 176 5 : Nat) }) }
    let u := { u with subframe := setSub u.subframe 2 (fun s => { s with
                 pulse_pos := (((pp2 <<< 16) + readBits buf 140 16 : Nat) : Int),
                 pulse_sign := (readBits buf 181 6 : Nat) }) }
    { u with subframe := setSub u.subframe 3 (fun s => { s with
                 pulse_pos := (((pp3 <<< 14) + readBits buf 156 14 : Nat) : Int),
                 pulse_sign := (readBits buf 187 5 : Nat) }) }
  else
    let u := { u with subframe := setSub u.subframe 0 (fun s => { s with
                 pulse_pos := (readBits buf 96 12 : Nat), pulse_sign := (readBits buf 144 4 : Nat) }) }
    let u := { u with subframe := setSub u.subframe 1 (fun s => { s with
                 pulse_pos := (readBits buf 108 12 : Nat), pulse_sign := (readBits buf 148 4 : Nat) }) }
    let u := { u with subframe := setSub u.subframe 2 (fun s => { s with
                 pulse_pos := (readBits buf 120 12 : Nat), pulse_sign := (readBits buf 152 4 : Nat) }) }
    { u with subframe := setSub u.subframe 3 (fun s => { s with
                 pulse_pos := (readBits buf 132 12 : Nat), pulse_sign := (readBits buf 156 4 : Nat) }) }

/-- Grid-index bits at positions 92-95. -/
def unpackGrids (buf : List Nat) (u : UnpackOut) : UnpackOut :=
  let u := { u with subframe := setSub u.subframe 0 (fun s => { s with grid_index := (readBits buf 92 1 : Nat) }) }
  let u := { u with subframe := setSub u.subframe 1 (fun s => { s with grid_index := (readBits buf 93 1 : Nat) }) }
  let u := { u with subframe := setSub u.subframe 2 (fun s => { s with grid_index := (readBits buf 94 1 : Nat) }) }
  { u with subframe := setSub u.subframe 3 (fun s => { s with grid_index := (readBits buf 95 1 : Nat) }) }

/-- unpack_bitstream.  u0 carries the current values of the context
fields the C function mutates in place; on failure the partially
written fields are kept, as in the source. -/
def unpack_bitstream (u0 : UnpackOut) (buf : List Nat) : UnpackOut :=
  let info_bits := readBits buf 0 2
  if info_bits = 3 then { u0 with cur_frame_type := .untransmitted, ok := true } else
  let u := { u0 with lsp_index := [readBits buf 18 8, readBits buf 10 8, readBits buf 2 8] }
  if info_bits = 2 then
    { u with cur_frame_type := .sid,
             subframe := setSub u.subframe 0 (fun s => { s with amp_index := (readBits buf 26 6 : Nat) }),
             ok := true }
  else
  let u := { u with cur_rate := if info_bits = 0 then .r6300 else .r5300,
                    cur_frame_type := .active }
  let u := unpackLags buf u
  if !u.ok then u else
  let u := unpackGainStep buf 3 (unpackGainStep buf 2 (unpackGainStep buf 1 (unpackGainStep buf 0 u)))
  if !u.ok then u else
  unpackPulses buf (unpackGrids buf u)

/-! ### inverse_quant (g723_1.c lines 305-365) -/

/-- Minimum distance between adjacent LSPs: 0x100 for good frames,
0x200 for bad frames. -/
def lspMinDist (bad : Bool) : Int := if bad then 0x200 else 0x100

/-- Prediction factor: 12288 for good frames, 23552 for bad frames. -/
def lspPred (bad : Bool) : Int := if bad then 23552 else 12288

/-- VQ table entries selected by the three band indices (3+3+4 values). -/
def lspVQ (T : Tables) (idx : List Nat) : List Int :=
  [T.lsp_band0 (idx.getD 0 0) 0, T.lsp_band0 (idx.getD 0 0) 1, T.lsp_band0 (idx.getD 0 0) 2,
   T.lsp_band1 (idx.getD 1 0) 0, T.lsp_band1 (idx.getD 1 0) 1, T.lsp_band1 (idx.getD 1 0) 2,
   T.lsp_band2 (idx.getD 2 0) 0, T.lsp_band2 (idx.getD 2 0) 1, T.lsp_band2 (idx.getD 2 0) 2,
   T.lsp_band2 (idx.getD 2 0) 3]

/-- Add predicted vector and DC component to the quantized vector. -/
def lspAddPred (T : Tables) (prev : List Int) (pred : Int) (base : List Int) : List Int :=
  (List.range LPC_ORDER).map (fun i =>
    i16 (base.getD i 0 + T.dc_lsp i + asr ((prev.getD i 0 - T.dc_lsp i) * pred + 2 ^ 14) 15))

/-- Clamp cur_lsp[0] to at least 0x180 and cur_lsp[9] to at most 0x7e00. -/
def clampEnds (l : List Int) : List Int :=
  let l := l.set 0 (max (l.getD 0 0) 0x180)
  l.set 9 (min (l.getD 9 0) 0x7e00)

/-- One adjacent-pair adjustment: if min_dist + lsp[j-1] - lsp[j] > 0,
split the halved deficit between the two neighbours. -/
def adjustStep (min_dist : Int) (l : List Int) (j : Nat) : List Int :=
  let temp := min_dist + l.getD (j - 1) 0 - l.getD j 0
  if temp > 0 then
    let t := asr temp 1
    (l.set (j - 1) (i16 (l.getD (j - 1) 0 - t))).set j (i16 (l.getD j 0 + t))
  else l

/-- The inner j-loop over pairs j = 1..9. -/
def adjustPass (min_dist : Int) (l : List Int) : List Int :=
  (List.range' 1 9).foldl (adjustStep min_dist) l

/-- Stability test: lsp[j-1] + min_dist - lsp[j] - 4 <= 0 for all j in 1..9. -/
def stableCheck (min_dist : Int) (l : List Int) : Bool :=
  (List.range' 1 9).all (fun j => decide (l.getD (j - 1) 0 + min_dist - l.getD j 0 - 4 ≤ 0))

/-- Up to 10 enforcement passes; each pass clamps the endpoints, adjusts
the pairs and tests stability. -/
def stabilityLoop (min_dist : Int) : Nat → List Int → List Int × Bool
  | 0, l => (l, false)
  | n + 1, l =>
      let l' := adjustPass min_dist (clampEnds l)
      if stableCheck min_dist l' then (l', true) else stabilityLoop min_dist n l'

/-- inverse_quant: returns the reconstructed cur_lsp and the (possibly
zeroed) lsp_index values, since the C function zeroes the caller's
index array on a bad frame. -/
def inverse_quant (T : Tables) (prev_lsp : List Int) (lsp_index : List Nat)
    (bad_frame : Bool) : List Int × List Nat :=
  let idx := if bad_frame then [0, 0, 0] else lsp_index
  let cur0 := lspAddPred T prev_lsp (lspPred bad_frame) (lspVQ T idx)
  let r := stabilityLoop (lspMinDist bad_frame) 10 cur0
  (if r.2 then r.1 else prev_lsp, idx)

/-! ### lsp2lpc and lsp_interpolate (lines 373-469) -/

/-- MULL2(a,b) = 2ab scaled by 1/2^16, computed without the high half. -/
def MULL2 (a b : Int) : Int :=
  i32 (asr a 16 * b * 2 + asr (Int.emod a 65536 * b) 15)

/-- Negative cosine via table lookup with 7-bit fractional interpolation. -/
def negCosine (T : Tables) (x : Int) : Int :=
  let index := asr x 7
  let offset := Int.emod x 128
  let temp1 := T.cos_tab index * 2 ^ 16
  let temp2 := i32 ((T.cos_tab (index + 1) - T.cos_tab index) * (offset * 256 + 0x80) * 2)
  i16 (-(asr (av_sat_dadd32 (2 ^ 15) (i32 (temp1 + temp2))) 16))

/-- Body of the descending inner j-loop of the polynomial recurrence. -/
def polyInnerStep (lv : Int) (f : List Int) (j : Nat) : List Int :=
  f.set j (i32 (MULL2 (f.getD (j - 1) 0) lv + asr (f.getD j 0) 1 + asr (f.getD (j - 2) 0) 1))

/-- One outer iteration (i = 2..4) of the polynomial recurrence. -/
def polyStep (lv : Int) (f : List Int) (i : Nat) : List Int :=
  let f := f.set (i + 1) (i32 (f.getD (i - 1) 0 + MULL2 (f.getD i 0) lv))
  let f := ((List.range' 2 (i - 1)).reverse).foldl (polyInnerStep lv) f
  let f := f.set 0 (asr (f.getD 0 0) 1)
  f.set 1 (asr (i32 (asr (lv * 2 ^ 16) i + f.getD 1 0)) 1)

/-- Sum (even coefficients) or difference (odd coefficients) polynomial
in Q28: coef m selects the m-th negative cosine of the relevant parity. -/
def polyExpand (coef : Nat → Int) : List Int :=
  let f : List Int := [2 ^ 28, i32 ((coef 0 + coef 1) * 2 ^ 14), i32 (coef 0 * coef 1 + 2 ^ 29), 0, 0, 0]
  (List.range' 2 3).foldl (fun g i => polyStep (coef i) g i) f

/-- lsp2lpc: convert 10 LSP frequencies to 10 Q12 LPC coefficients. -/
def lsp2lpc (T : Tables) (lsp : List Int) : List Int :=
  let lv := lsp.map (negCosine T)
  let f1 := polyExpand (fun m => lv.getD (2 * m) 0)
  let f2 := polyExpand (fun m => lv.getD (2 * m + 1) 0)
  (List.range LPC_ORDER).map (fun k =>
    let i := if k < 5 then k else 9 - k
    let ff1 := f1.getD (i + 1) 0 + f1.getD i 0
    let ff2 := f2.getD (i + 1) 0 - f2.getD i 0
    if k < 5 then asr (clip_int32 ((ff1 + ff2) * 8 + 2 ^ 15)) 16
    else asr (clip_int32 ((ff1 - ff2) * 8 + 2 ^ 15)) 16)

/-- Modelled from the spec: ff_acelp_weighted_vector_sum
(acelp_vectors.c, not in src/) with contract
dst[i] = clip_int16((a[i]*wa + b[i]*wb + rnd) >> shift). -/
def weighted_vector_sum (a b : List Int) (wa wb rnd : Int) (shift n : Nat) : List Int :=
  (List.range n).map (fun i => clip_int16 (asr (a.getD i 0 * wa + b.getD i 0 * wb + rnd) shift))

/-- lsp_interpolate: the four interpolated LPC sets of a frame. -/
def lsp_interpolate (T : Tables) (cur prev : List Int) : List (List Int) :=
  [lsp2lpc T (weighted_vector_sum cur prev 4096 12288 (2 ^ 13) 14 LPC_ORDER),
   lsp2lpc T (weighted_vector_sum cur prev 8192 8192 (2 ^ 13) 14 LPC_ORDER),
   lsp2lpc T (weighted_vector_sum cur prev 12288 4096 (2 ^ 13) 14 LPC_ORDER),
   lsp2lpc T ((List.range LPC_ORDER).map (fun i => cur.getD i 0))]

/-! ### Excitation generation (lines 474-607) -/

/-- Saturating dot product: each product is added twice with saturation. -/
def dot_product (a b : List Int) : Int :=
  (List.zipWith (fun x y => x * y) a b).foldl av_sat_dadd32 0

/-- gen_dirac_train: add copies of the original vector at every multiple
of the pitch lag. -/
def gen_dirac_train (buf : List Int) (pitch_lag : Int) : List Int :=
  let lagN := pitch_lag.toNat
  let starts := (List.range SUBFRAME_LEN).filter (fun i => i ≠ 0 ∧ lagN ≠ 0 ∧ i % lagN = 0)
  starts.foldl (fun acc i =>
    (List.range SUBFRAME_LEN).foldl (fun acc2 k =>
      if i ≤ k then acc2.set k (i16 (acc2.getD k 0 + buf.getD (k - i) 0)) else acc2) acc) buf

/-- Combinatorial decoding of the R6300 pulse positions (fuel is the grid
index i, at most 30 steps): the exact comparison sequence
temp -= table[j][i]; if temp >= 0 continue; temp += table[j++][i]. -/
def fcbPulses (T : Tables) (sub : Subfrm) : Nat → Nat → Nat → Int → List Int → List Int
  | 0, _, _, _, vec => vec
  | fuel + 1, i, j, temp, vec =>
      if SUBFRAME_LEN / GRID_SIZE ≤ i then vec else
      let temp' := temp - T.combinatorial_table j i
      if temp' ≥ 0 then fcbPulses T sub fuel (i + 1) j temp' vec
      else
        let j' := j + 1
        let amp := T.fixed_cb_gain sub.amp_index
        let value := if (sub.pulse_sign.toNat >>> (PULSE_MAX - j')) &&& 1 = 1 then -amp else amp
        let vec := vec.set (sub.grid_index.toNat + GRID_SIZE * i) value
        if j' = PULSE_MAX then vec
        else fcbPulses T sub fuel (i + 1) j' temp vec

/-- gen_fcb_excitation: fixed-codebook excitation for one subframe.  The
internal scratch is 64 entries long because the 5300 bps pulse offsets
can reach 63 (the C code spills into the following buffer region, which
is overwritten or unread); the caller keeps the first SUBFRAME_LEN. -/
def gen_fcb_excitation (T : Tables) (sub : Subfrm) (cur_rate : Rate)
    (pitch_lag : Int) (index : Nat) : List Int :=
  let vector : List Int := List.replicate 64 0
  if cur_rate = .r6300 then
    if sub.pulse_pos ≥ T.max_pos index then vector.take SUBFRAME_LEN else
    let vec := (fcbPulses T sub 30 0 (PULSE_MAX - T.pulses index) sub.pulse_pos vector).take SUBFRAME_LEN
    if sub.dirac_train = 1 then gen_dirac_train vec pitch_lag else vec
  else
    let cb_gain := T.fixed_cb_gain sub.amp_index
    let vec := (List.range 4).foldl (fun acc k =>
       let cb_pos := Int.fdiv sub.pulse_pos (2 ^ (3 * k))
       let offset := (Int.emod cb_pos 8).toNat * 8 + sub.grid_index.toNat + 2 * k
       let sgn := (sub.pulse_sign.toNat >>> k) &&& 1
       acc.set offset (if sgn = 1 then cb_gain else -cb_gain)) vector
    let vec := vec.take SUBFRAME_LEN
    let lag := T.pitch_contrib (sub.ad_cb_gain * 2) + pitch_lag + sub.ad_cb_lag - 1
    let beta := T.pitch_contrib (sub.ad_cb_gain * 2 + 1)
    if lag < (SUBFRAME_LEN : Int) - 2 then
      (List.range SUBFRAME_LEN).foldl (fun acc (i : Nat) =>
        if lag ≤ (i : Int) then
          acc.set i (i16 (acc.getD i 0 + asr (beta * readI acc ((i : Int) - lag)) 15))
        else acc) vec
    else vec

/-- get_residual: the delayed window of the previous excitation, read at
offset PITCH_MAX - PITCH_ORDER/2 - lag relative to base; the first two
samples are direct, the rest wrap modulo lag. -/
def get_residual (exc : List Int) (base lag : Int) : List Int :=
  let offset := (PITCH_MAX : Int) - 2 - lag
  [readI exc (base + offset), readI exc (base + offset + 1)] ++
  (List.range (SUBFRAME_LEN + PITCH_ORDER - 1 - 2)).map (fun m =>
     readI exc (base + offset + 2 + (if lag ≤ 0 then 0 else Int.emod (m : Int) lag)))

/-- gen_acb_excitation: adaptive-codebook excitation for one subframe;
base is the offset of the subframe's window inside exc. -/
def gen_acb_excitation (T : Tables) (exc : List Int) (base : Int) (pitch_lag : Int)
    (sub : Subfrm) (cur_rate : Rate) : List Int :=
  let residual := get_residual exc base (pitch_lag + sub.ad_cb_lag - 1)
  let cb : Int → Int :=
    if cur_rate = .r6300 ∧ pitch_lag < (SUBFRAME_LEN : Int) - 2 then T.adaptive_cb_gain85
    else T.adaptive_cb_gain170
  let row := (List.range PITCH_ORDER).map (fun k => cb (sub.ad_cb_gain * 20 + k))
  (List.range SUBFRAME_LEN).map (fun i =>
    asr (av_sat_dadd32 (2 ^ 15) (dot_product ((residual.drop i).take PITCH_ORDER) row)) 16)

/-- The working excitation of an active frame: the PITCH_MAX samples of
prev_excitation followed by the four combined subframe vectors
clip_int16(clip_int16(fcb << 1) + acb). -/
def activeExcitation (T : Tables) (prevExc : List Int) (subs : List Subfrm)
    (lags : List Int) (rate : Rate) : List Int :=
  (List.range SUBFRAMES).foldl (fun acc i =>
    let sub := subfrmGet subs i
    let lag := lags.getD (i / 2) 0
    let fcb := gen_fcb_excitation T sub rate lag i
    let acb := gen_acb_excitation T acc ((SUBFRAME_LEN : Int) * i) lag sub rate
    acc ++ (List.range SUBFRAME_LEN).map (fun j =>
      clip_int16 (clip_int16 (2 * fcb.getD j 0) + acb.getD j 0))) prevExc

/-! ### scale_vector, autocorr_max (lines 279-295, 619-640) -/

/-- scale_vector: normalize by the OR of the absolute values, capped at
0x7FFF; returns (bits - 3, scaled copy). -/
def scale_vector (vector : List Int) : Int × List Int :=
  let m := min (vector.foldl (fun (a : Nat) v => a ||| v.natAbs) 0) 0x7FFF
  let bits := normalize_bits (m : Int) 15
  (bits - 3, vector.map (fun v => i16 (asr (v * 2 ^ bits.toNat) 3)))

/-- autocorr_max: best correlation lag within plus or minus 3 of the
pitch lag; base is the absolute index of buf inside aud, offset the
excitation-relative offset used for the forward limit.  Returns
(lag, ccr_max) with ccr_max initialized to 0. -/
def autocorr_max (aud : List Int) (base offset : Int) (pitch_lag : Int)
    (length : Nat) (dir : Int) : Int × Int :=
  let plag := min ((PITCH_MAX : Int) - 3) pitch_lag
  let limit : Int :=
    if dir > 0 then min ((FRAME_LEN : Int) + (PITCH_MAX : Int) - offset - length) (plag + 3)
    else plag + 3
  let count := (limit - (plag - 3) + 1).toNat
  (List.range count).foldl (fun (st : Int × Int) k =>
    let i := plag - 3 + k
    let ccr := dot_product (segI aud base length) (segI aud (base + dir * i) length)
    if ccr > st.2 then (i, ccr) else st) (0, 0)

/-- comp_interp_index (lines 784-817): classify the frame as voiced or
unvoiced.  Returns (interp_index, exc_eng, scale, audio), since the C
function stores the scaled excitation into the audio scratch and writes
exc_eng and scale through pointers that the caller aliases to sid_gain
and cur_gain. -/
def comp_interp_index (audio exc : List Int) (pitch_lag : Int) :
    Int × Int × Int × List Int :=
  let sv := scale_vector (exc.take (FRAME_LEN + PITCH_MAX))
  let scale := sv.1
  let audio' := splice audio LPC_ORDER sv.2
  let offset := (PITCH_MAX : Int) + 2 * (SUBFRAME_LEN : Int)
  let base := (LPC_ORDER : Int) + offset
  let ac := autocorr_max audio' base offset pitch_lag (SUBFRAME_LEN * 2) (-1)
  let index := ac.1
  let ccr := asr (av_sat_add32 ac.2 (2 ^ 15)) 16
  let tgt := dot_product (segI audio' base (SUBFRAME_LEN * 2)) (segI audio' base (SUBFRAME_LEN * 2))
  let exc_eng := asr (av_sat_add32 tgt (2 ^ 15)) 16
  if ccr ≤ 0 then (0, exc_eng, scale, audio')
  else
    let best := dot_product (segI audio' (base - index) (SUBFRAME_LEN * 2))
                  (segI audio' (base - index) (SUBFRAME_LEN * 2))
    let best_eng := asr (av_sat_add32 best (2 ^ 15)) 16
    if asr (best_eng * exc_eng) 3 < ccr * ccr then (index, exc_eng, scale, audio')
    else (0, exc_eng, scale, audio')

/-! ### Pitch postfilter (lines 652-772) -/

/-- Pitch postfilter parameters (struct PPFParam). -/
structure PPFParam where
  index : Int
  opt_gain : Int
  sc_gain : Int

/-- comp_ppf_gains: optimal and scaling gains from the normalized
energies. -/
def comp_ppf_gains (T : Tables) (lag : Int) (cur_rate : Rate)
    (tgt_eng ccr res_eng : Int) : PPFParam :=
  let rateIdx : Nat := if cur_rate = .r6300 then 0 else 1
  let temp1 := asr (tgt_eng * res_eng) 1
  let temp2 := ccr * ccr * 2
  let og :=
    if temp2 > temp1 then
      let opt :=
        if ccr ≥ res_eng then T.ppf_gain_weight rateIdx
        else asr (Int.tdiv (ccr * 2 ^ 15) res_eng * T.ppf_gain_weight rateIdx) 15
      let t1 := i32 (tgt_eng * 2 ^ 15 + ccr * opt * 2)
      let t2 := asr (opt * opt) 15 * res_eng
      let pf_residual := asr (av_sat_add32 t1 (t2 + 2 ^ 15)) 16
      let sc :=
        if tgt_eng ≥ pf_residual * 2 then 0x7fff
        else Int.tdiv (tgt_eng * 2 ^ 14) pf_residual
      (opt, square_root (i32 (sc * 2 ^ 16)))
    else (0, 0x7fff)
  { index := lag, opt_gain := clip_int16 (asr (og.1 * og.2) 15), sc_gain := og.2 }

/-- comp_ppf_coeff: pitch postfilter parameters for one subframe; aud is
the audio scratch (scaled excitation), offset the subframe offset. -/
def comp_ppf_coeff (T : Tables) (aud : List Int) (offset pitch_lag : Int)
    (cur_rate : Rate) : PPFParam :=
  let base := (LPC_ORDER : Int) + offset
  let fwd := autocorr_max aud base offset pitch_lag SUBFRAME_LEN 1
  let back := autocorr_max aud base offset pitch_lag SUBFRAME_LEN (-1)
  if back.1 = 0 ∧ fwd.1 = 0 then { index := 0, opt_gain := 0, sc_gain := 0x7fff } else
  let e0 := dot_product (segI aud base SUBFRAME_LEN) (segI aud base SUBFRAME_LEN)
  let e2 := if fwd.1 ≠ 0 then
      dot_product (segI aud (base + fwd.1) SUBFRAME_LEN) (segI aud (base + fwd.1) SUBFRAME_LEN)
    else 0
  let e4 := if back.1 ≠ 0 then
      dot_product (segI aud (base - back.1) SUBFRAME_LEN) (segI aud (base - back.1) SUBFRAME_LEN)
    else 0
  let mx := max 0 (max (max (max (max e0 fwd.2) e2) back.2) e4)
  let scale := (normalize_bits mx 31).toNat
  let e0s := asr (e0 * 2 ^ scale) 16
  let e1s := asr (fwd.2 * 2 ^ scale) 16
  let e2s := asr (e2 * 2 ^ scale) 16
  let e3s := asr (back.2 * 2 ^ scale) 16
  let e4s := asr (e4 * 2 ^ scale) 16
  if fwd.1 ≠ 0 ∧ back.1 = 0 then comp_ppf_gains T fwd.1 cur_rate e0s e1s e2s
  else if fwd.1 = 0 then comp_ppf_gains T (-back.1) cur_rate e0s e3s e4s
  else
    let temp1 := e4s * asr (e1s * e1s + 2 ^ 14) 15
    let temp2 := e2s * asr (e3s * e3s + 2 ^ 14) 15
    if temp1 ≥ temp2 then comp_ppf_gains T fwd.1 cur_rate e0s e1s e2s
    else comp_ppf_gains T (-back.1) cur_rate e0s e3s e4s

/-- The pitch-postfilter mix: for each subframe the weighted sum of the
excitation and its lagged copy is written into audio[10 + 60 j ..). -/
def ppfMix (T : Tables) (aud exc : List Int) (lags : List Int) (cur_rate : Rate) : List Int :=
  (List.range SUBFRAMES).foldl (fun acc (j : Nat) =>
    let ppf := comp_ppf_coeff T acc ((PITCH_MAX : Int) + (SUBFRAME_LEN : Int) * j)
                 (lags.getD (j / 2) 0) cur_rate
    let mixed := (List.range SUBFRAME_LEN).map (fun k =>
      clip_int16 (asr (readI exc ((PITCH_MAX : Int) + 60 * j + k) * ppf.sc_gain +
                       readI exc ((PITCH_MAX : Int) + 60 * j + k + ppf.index) * ppf.opt_gain +
                       2 ^ 14) 15))
    splice acc (LPC_ORDER + SUBFRAME_LEN * j) mixed) aud

/-! ### residual_interp (lines 828-846) -/

/-- Modelled from the spec: av_memcpy_backptr (libavutil, not in src/)
replicates the leading lag samples periodically until n samples exist. -/
def periodicFill (first : List Int) (lag n : Nat) : List Int :=
  (List.range n).foldl (fun acc i =>
    if i < lag then acc else acc ++ [acc.getD (i - lag) 0]) first

/-- residual_interp: voiced frames replay the attenuated lag-periodic
residual; unvoiced frames emit scaled LCG noise and zero the excitation.
Returns (out, excitation, random_seed). -/
def residual_interp (exc : List Int) (lag gain rseed : Int) :
    List Int × List Int × Int :=
  if lag ≠ 0 then
    let first := (List.range lag.toNat).map (fun i =>
      i16 (asr (readI exc ((PITCH_MAX : Int) + i - lag) * 3) 2))
    (periodicFill first lag.toNat FRAME_LEN, exc, rseed)
  else
    let stepped := (List.range FRAME_LEN).foldl (fun (st : List Int × Int) _ =>
      let seed := i32 (st.2 * 521 + 259)
      (st.1 ++ [i16 (asr (i32 (gain * seed)) 15)], seed)) ([], rseed)
    (stepped.1, List.replicate (FRAME_LEN + PITCH_MAX) 0, stepped.2)

/-! ### Formant postfilter (lines 856-989) -/

/-- iir_filter, applied in place at fsig[base..base+60): the lattice
update dest[m] = clip32((src[m] << 16) + (filter << 3) + (1 << 15)). -/
def iir_filter (fir_coef iir_coef : List Int) (buf fsig : List Int) (base : Nat) : List Int :=
  (List.range SUBFRAME_LEN).foldl (fun acc m =>
    let idx := base + m
    let filter := (List.range LPC_ORDER).foldl (fun s n =>
      s + iir_coef.getD n 0 * asr (acc.getD (idx - (n + 1)) 0) 16
        - fir_coef.getD n 0 * buf.getD (idx - (n + 1)) 0) 0
    acc.set idx (clip_int32 (buf.getD idx 0 * 2 ^ 16 + filter * 8 + 2 ^ 15))) fsig

/-- gain_scale: smooth pf_gain per sample and rescale the subframe. -/
def gain_scale (pfg : Int) (buf : List Int) (energy : Int) : List Int × Int :=
  let num := energy
  let denom := buf.foldl (fun d v => av_sat_dadd32 d (asr v 2 * asr v 2)) 0
  let gain :=
    if num ≠ 0 ∧ denom ≠ 0 then
      let bits1 := (normalize_bits num 31).toNat
      let bits2 := (normalize_bits denom 31).toNat
      let num' := asr (num * 2 ^ bits1) 1
      let denom' := denom * 2 ^ bits2
      let b2 := (max 0 (5 + (bits1 : Int) - bits2)).toNat
      let g := Int.tdiv (asr num' 1) (asr denom' 16)
      square_root (asr (i32 (g * 2 ^ 16)) b2)
    else 2 ^ 12
  (List.range SUBFRAME_LEN).foldl (fun (st : List Int × Int) i =>
    let pfg' := asr (15 * st.2 + gain + 2 ^ 3) 4
    (st.1.set i (clip_int16 (asr (st.1.getD i 0 * (pfg' + asr pfg' 4) + 2 ^ 10) 11)), pfg'))
    (buf, pfg)

/-- Result bundle of formant_postfilter. -/
structure FormantOut where
  out : List Int
  fir : List Int
  iir : List Int
  refl : Int
  pfg : Int
  audio : List Int

/-- formant_postfilter: short-term weighted filtering, tilt compensation
and adaptive gain scaling; audio holds fir_mem-seeded input (the C code
first overwrites audio[0..9] with fir_mem). -/
def formant_postfilter (T : Tables) (lpcRows : List (List Int)) (audio : List Int)
    (fir iir : List Int) (refl pfg : Int) : FormantOut :=
  let buf := ((List.range LPC_ORDER).map (fun i => fir.getD i 0)) ++ audio.drop LPC_ORDER
  let fsig0 := ((List.range LPC_ORDER).map (fun i => iir.getD i 0)) ++
               List.replicate FRAME_LEN 0
  let fsig := (List.range SUBFRAMES).foldl (fun acc j =>
    let row := lpcRows.getD j []
    let fc0 := (List.range LPC_ORDER).map (fun k =>
      i16 (asr (-(row.getD k 0) * T.postfilter_tbl0 k + 2 ^ 14) 15))
    let fc1 := (List.range LPC_ORDER).map (fun k =>
      i16 (asr (-(row.getD k 0) * T.postfilter_tbl1 k + 2 ^ 14) 15))
    iir_filter fc0 fc1 buf acc (LPC_ORDER + SUBFRAME_LEN * j)) fsig0
  let fir' := (buf.drop FRAME_LEN).take LPC_ORDER
  let iir' := (fsig.drop FRAME_LEN).take LPC_ORDER
  let final := (List.range SUBFRAMES).foldl
    (fun (st : List Int × Int × Int) i =>
      let sv := scale_vector ((buf.drop (LPC_ORDER + SUBFRAME_LEN * i)).take SUBFRAME_LEN)
      let dst := sv.2
      let ac0 := dot_product dst (dst.drop 1)
      let ac1 := dot_product dst dst
      let t0 := asr ac1 16
      let temp := if t0 ≠ 0 then Int.tdiv (asr ac0 2) t0 else t0
      let refl' := asr (3 * st.2.1 + temp + 2) 2
      let h := asr (-refl') 1
      let tcomp := h - Int.emod h 4
      let dst2 := (List.range SUBFRAME_LEN).map (fun j =>
        asr (av_sat_dadd32 (fsig.getD (LPC_ORDER + SUBFRAME_LEN * i + j) 0)
              (asr (fsig.getD (LPC_ORDER + SUBFRAME_LEN * i + j - 1) 0) 16 * tcomp)) 16)
      let tE := 2 * sv.1 + 4
      let energy := if tE < 0 then clip_int32 (ac1 * 2 ^ (-tE).toNat) else asr ac1 tE.toNat
      let gs := gain_scale st.2.2 dst2 energy
      (st.1 ++ gs.1, refl', gs.2)) ([], refl, pfg)
  { out := final.1, fir := fir', iir := iir', refl := final.2.1, pfg := final.2.2, audio := buf }

/-! ### LP synthesis and the output stage -/

/-- Modelled from the spec: ff_celp_lp_synthesis_filter (celp_filters.c,
not in src/) with contract dst[i] = src[i] - (sum_k lpc[k]*dst[i-k-1])
divided by 1<<12, int16-clipped; hist holds previous outputs, most
recent first. -/
def lpSynth (lpc : List Int) : List Int → List Int → List Int
  | _, [] => []
  | hist, x :: src =>
      let y := clip_int16 (x - asr ((List.zipWith (fun a b => a * b) lpc hist).foldl (· + ·) 0) 12)
      y :: lpSynth lpc (y :: hist.take 9) src

/-- Synthesis of the four subframes with the 10-sample history threaded
through (the lpc set changes every SUBFRAME_LEN samples). -/
def frameSynthGo : List (List Int) → List Int → List Int → List Int
  | [], _, _ => []
  | row :: rows, hist, src =>
      let y := lpSynth row hist (src.take SUBFRAME_LEN)
      y ++ frameSynthGo rows ((y.reverse ++ hist).take LPC_ORDER) (src.drop SUBFRAME_LEN)

/-- Full-frame synthesis seeded from synth_mem (audio[0..9] in the C
code, most recent sample last). -/
def frameSynth (lpcRows : List (List Int)) (mem src : List Int) : List Int :=
  frameSynthGo lpcRows mem.reverse src

/-! ### Comfort noise (lines 991-1184) -/

/-- sid_gain_to_lsp_index: piecewise mapping of the 6-bit SID amplitude. -/
def sid_gain_to_lsp_index (gain : Int) : Int :=
  if gain < 0x10 then gain * 2 ^ 6
  else if gain < 0x20 then (gain - 8) * 2 ^ 7
  else (gain - 20) * 2 ^ 8

/-- cng_rand: LCG step s = (s*521 + 259) & 0xFFFF, value
(s & 0x7FFF) * base >> 15; returns (state, value). -/
def cng_rand (state base : Int) : Int × Int :=
  let s := Int.emod (state * 521 + 259) 65536
  (s, asr (Int.emod s 32768 * base) 15)

/-- estimate_sid_gain: iterative inversion of the quadratic mapping into
a 6-bit code. -/
def estimate_sid_gain (T : Tables) (sid_gain cur_gain : Int) : Int :=
  let shift := 16 - cur_gain * 2
  let t := if shift > 0 then i32 (sid_gain * 2 ^ shift.toNat) else asr sid_gain (-shift).toNat
  let x := asr (i32 (t * T.cng_filt0)) 16
  if x ≥ T.cng_bseg 2 then 0x3F
  else
    let sh : Nat := if x ≥ T.cng_bseg 1 then 4 else 3
    let seg : Int := if x ≥ T.cng_bseg 1 then 3 else (if x ≥ T.cng_bseg 0 then 1 else 0)
    let seg2 := min seg 3
    let iter := (List.range sh).foldl (fun (st : Int × Int) _ =>
      let t2 := seg * 32 + st.1 * 2 ^ seg2.toNat
      (if x ≥ t2 * t2 then st.1 + st.2 else st.1 - st.2, asr st.2 1))
      (((2 ^ sh : Nat) : Int), ((2 ^ (sh - 1) : Nat) : Int))
    let val := iter.1
    let t4 := seg * 32 + val * 2 ^ seg2.toNat
    let y := t4 * t4 - x
    if y ≤ 0 then
      let t5 := seg * 32 + (val + 1) * 2 ^ seg2.toNat
      let t6 := t5 * t5 - x
      if t6 ≥ y then (seg2 - 1) * 16 + val + 1 else (seg2 - 1) * 16 + val
    else
      let t5 := seg * 32 + (val - 1) * 2 ^ seg2.toNat
      let t6 := t5 * t5 - x
      if t6 ≥ y then (seg2 - 1) * 16 + val - 1 else (seg2 - 1) * 16 + val

/-- Sampling without replacement of the noise pulse positions for one
subframe (fuel = pulses[i]); tmp starts as [0..29] and t as 30. -/
def cngPick : Nat → Int → List Nat → Nat → Nat → Int × List Nat
  | 0, seed, _, _, _ => (seed, [])
  | n + 1, seed, tmp, t, off =>
      let r := cng_rand seed (t : Int)
      let idx2 := r.2.toNat
      let chosen := tmp.getD idx2 0
      let tmp' := tmp.set idx2 (tmp.getD (t - 1) 0)
      let rest := cngPick n r.1 tmp' (t - 1) off
      (rest.1, (chosen * 2 + off) :: rest.2)

/-- Amplitude solving and pulse insertion for one half-frame pair
(subframe pair i, i+1 at buffer base vb = LPC_ORDER + 120*half): run the
two adaptive-codebook passes in place, normalize, solve the quadratic
for the pulse amplitude and add the 11 signed pulses, then copy the 120
samples PITCH_MAX further as history for the next pair. -/
def cngHalf (T : Tables) (rate : Rate) (cur_gain : Int) (aud0 : List Int)
    (half : Nat) (lag : Int) (subA subB : Subfrm) (pos : List Nat)
    (signs : List Int) : List Int :=
  let vb := LPC_ORDER + 2 * SUBFRAME_LEN * half
  let acb1 := gen_acb_excitation T aud0 (vb : Int) lag subA rate
  let aud := splice aud0 vb acb1
  let acb2 := gen_acb_excitation T aud ((vb + SUBFRAME_LEN : Nat) : Int) lag subB rate
  let aud := splice aud (vb + SUBFRAME_LEN) acb2
  let seg120 := (aud.drop vb).take (2 * SUBFRAME_LEN)
  let tOr := min (seg120.foldl (fun (a : Nat) v => a ||| v.natAbs) 0) 0x7FFF
  let shift : Int := if tOr = 0 then 0 else max (-2) (av_log2 (tOr : Int) - 10)
  let tmp := seg120.map (fun v => if shift < 0 then v * 2 ^ (-shift).toNat else asr v shift.toNat)
  let sum := tmp.foldl (fun s v => s + v * v) 0
  let b0acc := i32 ((List.range 11).foldl (fun b j =>
      b + tmp.getD (pos.getD (half * 11 + j) 0) 0 * signs.getD (half * 11 + j) 0) 0)
  let b0 := asr (b0acc * 2 * 2979 + 2 ^ 29) 30
  let c0 := i32 (cur_gain * i32 (asr (cur_gain * (SUBFRAME_LEN : Int)) 5))
  let c1 := if shift * 2 + 3 ≥ 0 then asr c0 (shift * 2 + 3).toNat
            else i32 (c0 * 2 ^ (-(shift * 2 + 3)).toNat)
  let c2 := i32 (asr ((clip_int32 (sum * 2) - c1) * 2979) 15)
  let delta := b0 * b0 * 2 - c2
  let x0 := if delta ≤ 0 then -b0 else
      let d := square_root delta
      let x1 := d - b0
      let t1 := d + b0
      if t1.natAbs < x1.natAbs then -t1 else x1
  let shift1 := shift + 1
  let x2 := if shift1 < 0 then asr x0 (-shift1).toNat else x0 * 2 ^ shift1.toNat
  let x3 := av_clip x2 (-10000) 10000
  let aud := (List.range 11).foldl (fun acc j =>
      let idx := half * 11 + j
      let pj := pos.getD idx 0
      acc.set (vb + pj) (clip_int16 (acc.getD (vb + pj) 0 + asr (x3 * signs.getD idx 0) 15))) aud
  splice aud (vb + PITCH_MAX) ((aud.drop vb).take (2 * SUBFRAME_LEN))

/-- generate_noise: returns (cng_random_seed, pitch_lag, subframe, audio,
prev_excitation) after the comfort-noise frame has been produced in the
audio scratch. -/
def generate_noise (T : Tables) (seed0 : Int) (rate : Rate) (cur_gain : Int)
    (prevExc audio0 : List Int) (subs0 : List Subfrm) :
    Int × List Int × List Subfrm × List Int × List Int :=
  let r0 := cng_rand seed0 21
  let r1 := cng_rand r0.1 19
  let lags : List Int := [r0.2 + 123, r1.2 + 123]
  let g := (List.range SUBFRAMES).foldl (fun (st : Int × List Subfrm) i =>
      let r := cng_rand st.1 50
      (r.1, setSub st.2 i (fun s =>
        { s with ad_cb_gain := r.2 + 1, ad_cb_lag := T.cng_adaptive_cb_lag i })))
    (r1.1, subs0)
  let h := (List.range (SUBFRAMES / 2)).foldl (fun (st : Int × List Nat × List Int) _ =>
      let r := cng_rand st.1 (2 ^ 13)
      let t := r.2.toNat
      let offA := t &&& 1
      let offB := ((t >>> 1) &&& 1) + SUBFRAME_LEN
      let t2 := t >>> 2
      let sgns := (List.range 11).map (fun j => ((((t2 >>> j) &&& 1 : Nat) : Int) * 2 - 1) * 2 ^ 14)
      (r.1, st.2.1 ++ [offA, offB], st.2.2 ++ sgns)) (g.1, [], [])
  let offs := h.2.1
  let signs := h.2.2
  let pp := (List.range SUBFRAMES).foldl (fun (st : Int × List Nat) i =>
      let r := cngPick (T.pulses i) st.1 (List.range (SUBFRAME_LEN / 2)) (SUBFRAME_LEN / 2)
                 (offs.getD i 0)
      (r.1, st.2 ++ r.2)) (h.1, [])
  let pos := pp.2
  let aud1 := splice audio0 LPC_ORDER ((List.range PITCH_MAX).map (fun i => prevExc.getD i 0))
  let audA := cngHalf T rate cur_gain aud1 0 (lags.getD 0 0) (subfrmGet g.2 0) (subfrmGet g.2 1) pos signs
  let audB := cngHalf T rate cur_gain audA 1 (lags.getD 1 0) (subfrmGet g.2 2) (subfrmGet g.2 3) pos signs
  let prevExc' := (audB.drop (LPC_ORDER + FRAME_LEN)).take PITCH_MAX
  (pp.1, lags, g.2, audB, prevExc')

/-! ### Frame driver (g723_1_decode_frame, lines 1186-1349) -/

/-- The unpack state seeded from the context fields that
unpack_bitstream mutates in place. -/
def unpackInit (p : Ctx) : UnpackOut :=
  ⟨p.lsp_index, p.pitch_lag, p.subframe, p.cur_frame_type, p.cur_rate, true⟩

/-- Result of one decode call: the new context, the emitted frame (none
when no frame is produced) and the return value (bytes consumed). -/
structure DecodeResult where
  ctx : Ctx
  output : Option (List Int)
  retval : Nat

/-- Number of int16 samples zeroed by the memset of the output frame in
the erased_frames == 3 branch (line 1297): FRAME_LEN + LPC_ORDER, even
though the frame holds FRAME_LEN samples. -/
def muteOutputClearSamples : Nat := FRAME_LEN + LPC_ORDER

/-- The common tail of every decode path: LP synthesis of the four
subframes into audio[10..250) seeded from synth_mem, snapshot of the new
synth_mem, then either the formant postfilter or the clip(x << 1)
bypass. -/
def synthOutput (T : Tables) (p : Ctx) (lpcRows : List (List Int)) (src : List Int)
    (ret : Nat) : DecodeResult :=
  let synth := frameSynth lpcRows p.synth_mem (src.take FRAME_LEN)
  let audio1 := ((List.range LPC_ORDER).map (fun i => p.synth_mem.getD i 0)) ++ synth ++
                p.audio.drop (LPC_ORDER + FRAME_LEN)
  let p := { p with audio := audio1, synth_mem := (audio1.drop FRAME_LEN).take LPC_ORDER }
  if p.postfilter then
    let r := formant_postfilter T lpcRows p.audio p.fir_mem p.iir_mem p.reflection_coef p.pf_gain
    ⟨{ p with fir_mem := r.fir, iir_mem := r.iir, reflection_coef := r.refl,
              pf_gain := r.pfg, audio := r.audio }, some r.out, ret⟩
  else
    ⟨p, some (((p.audio.drop LPC_ORDER).take FRAME_LEN).map (fun x => clip_int16 (2 * x))), ret⟩

/-- The ACTIVE-frame path (lines 1228-1311). -/
def activeDecode (T : Tables) (p : Ctx) (bad_frame : Bool) (ret : Nat) : DecodeResult :=
  let ef := if !bad_frame then 0
            else if p.erased_frames = 3 then p.erased_frames else p.erased_frames + 1
  let p := { p with erased_frames := ef }
  let iq := inverse_quant T p.prev_lsp p.lsp_index bad_frame
  let p := { p with lsp_index := iq.2 }
  let lpcRows := lsp_interpolate T iq.1 p.prev_lsp
  let p := { p with prev_lsp := iq.1 }
  let exc0 := ((List.range PITCH_MAX).map (fun i => p.prev_excitation.getD i 0)) ++
              p.excitation.drop PITCH_MAX
  if p.erased_frames = 0 then
    let exc1 := activeExcitation T p.prev_excitation p.subframe p.pitch_lag p.cur_rate
    let ig := T.fixed_cb_gain
      (asr ((subfrmGet p.subframe 2).amp_index + (subfrmGet p.subframe 3).amp_index) 1)
    let p := { p with interp_gain := ig }
    let ci := comp_interp_index p.audio exc1 (p.pitch_lag.getD 1 0)
    let p := { p with interp_index := ci.1, sid_gain := ci.2.1, cur_gain := ci.2.2.1,
                      audio := ci.2.2.2, excitation := exc1 }
    let srcAndAudio :=
      if p.postfilter then
        let aud2 := ppfMix T p.audio p.excitation p.pitch_lag p.cur_rate
        (((aud2.drop LPC_ORDER).take FRAME_LEN), aud2)
      else
        (((p.excitation.drop PITCH_MAX).take FRAME_LEN), p.audio)
    let p := { p with audio := srcAndAudio.2,
                      prev_excitation := (p.excitation.drop FRAME_LEN).take PITCH_MAX,
                      cng_random_seed := CNG_RANDOM_SEED,
                      past_frame_type := p.cur_frame_type }
    synthOutput T p lpcRows srcAndAudio.1 ret
  else
    let p := { p with interp_gain := asr (p.interp_gain * 3 + 2) 2 }
    if p.erased_frames = 3 then
      let _frameClear : List Int := List.replicate muteOutputClearSamples 0
      let p := { p with excitation := List.replicate (FRAME_LEN + PITCH_MAX) 0,
                        prev_excitation := List.replicate PITCH_MAX 0,
                        cng_random_seed := CNG_RANDOM_SEED,
                        past_frame_type := p.cur_frame_type }
      synthOutput T p lpcRows ((p.audio.drop LPC_ORDER).take FRAME_LEN) ret
    else
      let ri := residual_interp exc0 p.interp_index p.interp_gain p.random_seed
      let aud1 := splice p.audio LPC_ORDER ri.1
      let p := { p with audio := aud1, excitation := ri.2.1, random_seed := ri.2.2,
                        prev_excitation := (ri.1.drop (FRAME_LEN - PITCH_MAX)).take PITCH_MAX,
                        cng_random_seed := CNG_RANDOM_SEED,
                        past_frame_type := p.cur_frame_type }
      synthOutput T p lpcRows ((p.audio.drop LPC_ORDER).take FRAME_LEN) ret

/-- The SID / UNTRANSMITTED comfort-noise path (lines 1312-1328). -/
def cngDecode (T : Tables) (p : Ctx) (ret : Nat) : DecodeResult :=
  let p :=
    if p.cur_frame_type = .sid then
      let sg := sid_gain_to_lsp_index (subfrmGet p.subframe 0).amp_index
      let iq := inverse_quant T p.prev_lsp p.lsp_index false
      { p with sid_gain := sg, sid_lsp := iq.1, lsp_index := iq.2 }
    else if p.past_frame_type = .active then
      { p with sid_gain := estimate_sid_gain T p.sid_gain p.cur_gain }
    else p
  let cg := if p.past_frame_type = .active then p.sid_gain
            else asr (p.cur_gain * 7 + p.sid_gain) 3
  let p := { p with cur_gain := cg }
  let gn := generate_noise T p.cng_random_seed p.cur_rate p.cur_gain p.prev_excitation
              p.audio p.subframe
  let p := { p with cng_random_seed := gn.1, pitch_lag := gn.2.1, subframe := gn.2.2.1,
                    audio := gn.2.2.2.1, prev_excitation := gn.2.2.2.2 }
  let lpcRows := lsp_interpolate T p.sid_lsp p.prev_lsp
  let p := { p with prev_lsp := p.sid_lsp, past_frame_type := p.cur_frame_type }
  synthOutput T p lpcRows ((p.audio.drop LPC_ORDER).take FRAME_LEN) ret

/-- g723_1_decode_frame.  The C entry point computes
dec_mode = buf[0] & 3 before the size check, so a zero-length packet
performs an out-of-bounds read (modelled as none); a packet shorter than
frame_size[dec_mode] produces no frame, leaves the state untouched and
consumes the whole packet. -/
def g723_1_decode_frame (T : Tables) (p : Ctx) (buf : List Nat) : Option DecodeResult :=
  match buf with
  | [] => none
  | b0 :: _ =>
    let dec_mode := b0 % 4
    if buf.length < frame_size dec_mode then some ⟨p, none, buf.length⟩
    else
      let u := unpack_bitstream (unpackInit p) buf
      let bad_frame := !u.ok
      let cur : FrameType :=
        if u.ok then u.cur_frame_type
        else if p.past_frame_type = .active then .active else .untransmitted
      let p := { p with lsp_index := u.lsp_index, pitch_lag := u.pitch_lag,
                        subframe := u.subframe, cur_rate := u.cur_rate,
                        cur_frame_type := cur }
      if cur = .active then some (activeDecode T p bad_frame (frame_size dec_mode))
      else some (cngDecode T p (frame_size dec_mode))

/-- g723_1_decode_init: zero-initialized context with pf_gain = 1 << 12,
the LSP buffers seeded from the DC table, cng_random_seed = 12345 and
past_frame_type = SID; the postfilter option defaults to on. -/
def g723_1_decode_init (T : Tables) : Ctx where
  subframe := List.replicate SUBFRAMES Subfrm.zero
  cur_frame_type := .active
  past_frame_type := .sid
  cur_rate := .r6300
  lsp_index := [0, 0, 0]
  pitch_lag := [0, 0]
  erased_frames := 0
  prev_lsp := (List.range LPC_ORDER).map (fun i => T.dc_lsp i)
  sid_lsp := (List.range LPC_ORDER).map (fun i => T.dc_lsp i)
  prev_excitation := List.replicate PITCH_MAX 0
  excitation := List.replicate (PITCH_MAX + FRAME_LEN) 0
  synth_mem := List.replicate LPC_ORDER 0
  fir_mem := List.replicate LPC_ORDER 0
  iir_mem := List.replicate LPC_ORDER 0
  random_seed := 0
  cng_random_seed := CNG_RANDOM_SEED
  interp_index := 0
  interp_gain := 0
  sid_gain := 0
  cur_gain := 0
  reflection_coef := 0
  pf_gain := 2 ^ 12
  postfilter := true
  audio := List.replicate (FRAME_LEN + LPC_ORDER + PITCH_MAX + 4) 0

/-! ### Concrete instances used to evaluate the development -/

/-- A fully concrete table instance (all entries zero, pulse counts
6/5/6/5 as in the standard) used to evaluate the decoder at specific
inputs; the theorems themselves are stated for arbitrary tables. -/
def zeroTables : Tables where
  dc_lsp := fun _ => 0
  lsp_band0 := fun _ _ => 0
  lsp_band1 := fun _ _ => 0
  lsp_band2 := fun _ _ => 0
  cos_tab := fun _ => 0
  fixed_cb_gain := fun _ => 0
  adaptive_cb_gain85 := fun _ => 0
  adaptive_cb_gain170 := fun _ => 0
  pitch_contrib := fun _ => 0
  max_pos := fun _ => 0
  combinatorial_table := fun _ _ => 0
  pulses := fun i => if i % 2 = 0 then 6 else 5
  postfilter_tbl0 := fun _ => 0
  postfilter_tbl1 := fun _ => 0
  ppf_gain_weight := fun _ => 0
  cng_filt0 := 0
  cng_bseg := fun _ => 0
  cng_adaptive_cb_lag := fun _ => 0

/-- A 20-byte R5300 packet whose first half-frame pitch-lag field holds
the forbidden raw value 127 (> 123): info bits 01, zero LSP indices,
bits 26..32 all ones. -/
def badPacket20 : List Nat := 0x01 :: ([0, 0, 0xFC, 0x01] ++ List.replicate 15 0)

/-- A 20-byte R5300 packet of an all-zero payload: every field decodes
in range, so unpacking succeeds with an ACTIVE frame. -/
def goodPacket20 : List Nat := 0x01 :: List.replicate 19 0

/-- A decoder state one bad frame away from the muting branch: the
previous frame was ACTIVE, two erasures have accumulated, the postfilter
is off, the synthesis memory is zero and the persistent audio scratch
still holds a non-zero stale sample at index LPC_ORDER (as it does after
any previous frame with non-silent output). -/
def muteState (T : Tables) : Ctx :=
  { g723_1_decode_init T with
    past_frame_type := .active
    erased_frames := 2
    postfilter := false
    audio := List.replicate LPC_ORDER 0 ++ 1000 :: List.replicate 388 0 }

/-- The initial context with the previous frame marked ACTIVE (the state
after a successfully decoded active frame, as far as the frame-type
dispatch is concerned). -/
def activeState (T : Tables) : Ctx :=
  { g723_1_decode_init T with past_frame_type := .active }

/-! ## Theorems -/

/-- Halving a natural square root is taking the root of the quarter. -/
theorem sqrt_div_four (n : Nat) : Nat.sqrt n / 2 = Nat.sqrt (n / 4) := by
  apply le_antisymm
  · apply Nat.le_sqrt.mpr
    apply Nat.le_div_iff_mul_le (by norm_num) |>.mpr
    have h1 := Nat.sqrt_le n
    have h2 : Nat.sqrt n / 2 * 2 ≤ Nat.sqrt n := Nat.div_mul_le_self _ _
    calc Nat.sqrt n / 2 * (Nat.sqrt n / 2) * 4
        = (Nat.sqrt n / 2 * 2) * (Nat.sqrt n / 2 * 2) := by ring
      _ ≤ Nat.sqrt n * Nat.sqrt n := Nat.mul_le_mul h2 h2
      _ ≤ n := h1
  · have h1 := Nat.sqrt_le (n / 4)
    have h3 : n / 4 * 4 ≤ n := Nat.div_mul_le_self _ _
    have h2 : 2 * Nat.sqrt (n / 4) ≤ Nat.sqrt n := by
      apply Nat.le_sqrt.mpr
      calc 2 * Nat.sqrt (n / 4) * (2 * Nat.sqrt (n / 4))
          = Nat.sqrt (n / 4) * Nat.sqrt (n / 4) * 4 := by ring
        _ ≤ n / 4 * 4 := Nat.mul_le_mul_right _ h1
        _ ≤ n := h3
    omega

/-- The greedy refinement of sqrtLoop: if res is the largest multiple of
2^(n+1) not exceeding s = sqrt(val/2), the remaining n steps with
exp = 2^n produce the largest even value not exceeding s. -/
theorem sqrtLoop_eval (val : Int) (h0 : 0 ≤ val) :
    ∀ n res, res = 2 ^ (n + 1) * (Nat.sqrt (val.toNat / 2) / 2 ^ (n + 1)) →
      sqrtLoop n val (res : Nat) ((2 ^ n : Nat) : Int) =
        ((2 * (Nat.sqrt (val.toNat / 2) / 2) : Nat) : Int) := by
  intro n
  induction n with
  | zero =>
      intro res hres
      subst hres
      simp [sqrtLoop]
  | succ n ih =>
      intro res hres
      have hexp : asr ((2 ^ (n + 1) : Nat) : Int) 1 = ((2 ^ n : Nat) : Int) := by
        have : ((2 ^ (n + 1) : Nat) : Int) = ((2 ^ n : Nat) : Int) * 2 := by
          push_cast [pow_succ]; ring
        rw [this]
        simp [asr, Int.mul_fdiv_cancel]
      set s := Nat.sqrt (val.toNat / 2) with hsdef
      have hcond : ∀ r : Nat,
          (val ≥ ((r : Int) * (r : Int) * 2) ↔ r ≤ s) := by
        intro r
        have hc1 : ((r : Int) * (r : Int) * 2) = ((r * r * 2 : Nat) : Int) := by push_cast; ring
        rw [ge_iff_le, hc1, ← Int.le_toNat h0]
        constructor
        · intro hh
          exact Nat.le_sqrt.mpr ((Nat.le_div_iff_mul_le (by norm_num)).mpr hh)
        · intro hh
          exact (Nat.le_div_iff_mul_le (by norm_num)).mp (Nat.le_sqrt.mp hh)
      have hq2 : s / 2 ^ (n + 1) / 2 = s / 2 ^ (n + 2) := by
        rw [Nat.div_div_eq_div_mul, ← pow_succ]
      set q := s / 2 ^ (n + 1) with hqdef
      set a := s / 2 ^ (n + 2) with hadef
      have hle : 2 * a ≤ q ∧ q ≤ 2 * a + 1 := by omega
      have hsplit : (2 * a + 1 ≤ q) ↔ ((2 * a + 1) * 2 ^ (n + 1) ≤ s) := by
        rw [hqdef]
        exact Nat.le_div_iff_mul_le (Nat.pos_pow_of_pos _ (by norm_num))
      have hstep : sqrtLoop (n + 1) val (res : Nat) ((2 ^ (n + 1) : Nat) : Int) =
          sqrtLoop n val
            (((if 2 * a + 1 ≤ q then res + 2 ^ (n + 1) else res) : Nat) : Int)
            ((2 ^ n : Nat) : Int) := by
        rw [sqrtLoop]
        rw [hexp]
        congr 1
        have hre : ((res : Nat) : Int) + ((2 ^ (n + 1) : Nat) : Int) =
            (((res + 2 ^ (n + 1) : Nat)) : Int) := by push_cast; ring
        have harith : res + 2 ^ (n + 1) = (2 * a + 1) * 2 ^ (n + 1) := by
          rw [hres]; ring
        by_cases hc : 2 * a + 1 ≤ q
        · have hcc : val ≥ (((res : Nat) : Int) + ((2 ^ (n + 1) : Nat) : Int)) *
              (((res : Nat) : Int) + ((2 ^ (n + 1) : Nat) : Int)) * 2 := by
            rw [hre, hcond, harith]
            exact hsplit.mp hc
          rw [if_pos hcc, if_pos hc]
          exact hre
        · have hcc : ¬ (val ≥ (((res : Nat) : Int) + ((2 ^ (n + 1) : Nat) : Int)) *
              (((res : Nat) : Int) + ((2 ^ (n + 1) : Nat) : Int)) * 2) := by
            rw [hre, hcond, harith]
            intro hx
            exact hc (hsplit.mpr hx)
          rw [if_neg hcc, if_neg hc]
      rw [hstep]
      apply ih
      by_cases hc : 2 * a + 1 ≤ q
      · rw [if_pos hc, hres]
        have hqv : q = 2 * a + 1 := by omega
        rw [hqv]; ring
      · rw [if_neg hc, hres]
        have hqv : q = 2 * a := by omega
        rw [hqv]; ring

/-- C4 (amended): square_root never sets the lowest result bit (the 14
refinement steps stop at exp = 2), so it returns the floor square root
of val/2 rounded down to an even value, i.e. 2*floor(sqrt(val/8)); the
result fits in 15 bits. -/
theorem c4_sqrt_even_floor (val : Int) (h0 : 0 ≤ val) (h1 : val < 2 ^ 31) :
    square_root val = ((2 * Nat.sqrt (val.toNat / 8) : Nat) : Int) ∧
      square_root val < 2 ^ 15 := by
  have hs : Nat.sqrt (val.toNat / 2) < 2 ^ 15 := by
    apply Nat.sqrt_lt.mpr
    have hv : val.toNat < 2 ^ 31 := by omega
    omega
  have h2 := sqrtLoop_eval val h0 14 0 (by
    have hz : Nat.sqrt (val.toNat / 2) / 2 ^ 15 = 0 := Nat.div_eq_of_lt hs
    rw [hz]
    simp)
  have h3 : square_root val = ((2 * (Nat.sqrt (val.toNat / 2) / 2) : Nat) : Int) := by
    have hcast2 : ((2 ^ 14 : Nat) : Int) = 0x4000 := by norm_num
    rw [square_root, ← hcast2]
    exact_mod_cast h2
  constructor
  · rw [h3, sqrt_div_four, Nat.div_div_eq_div_mul]
  · rw [h3]
    have hb : 2 * (Nat.sqrt (val.toNat / 2) / 2) < 2 ^ 15 := by omega
    exact_mod_cast hb

/-- C4 counterexample: at input 2 the source function returns 0, while
the claimed exact value floor(sqrt(2/2)) is 1. -/
theorem c4_counterexample :
    square_root 2 ≠ ((Nat.sqrt ((2 : Int).toNat / 2) : Nat) : Int) := by decide

/-- Witness for c4_sqrt_even_floor at val = 18. -/
theorem c4_witness :
    (0 ≤ (18 : Int) ∧ (18 : Int) < 2 ^ 31) ∧
      (square_root 18 = ((2 * Nat.sqrt ((18 : Int).toNat / 8) : Nat) : Int) ∧
        square_root 18 < 2 ^ 15) :=
  ⟨⟨by decide, by decide⟩, c4_sqrt_even_floor 18 (by decide) (by decide)⟩

/-- If the stability loop reports success, the last pass satisfied the
stability test. -/
theorem stabilityLoop_flag (md : Int) :
    ∀ n l, (stabilityLoop md n l).2 = true →
      stableCheck md (stabilityLoop md n l).1 = true := by
  intro n
  induction n with
  | zero => intro l h; simp [stabilityLoop] at h
  | succ n ih =>
      intro l h
      by_cases hc : stableCheck md (adjustPass md (clampEnds l)) = true
      · simp [stabilityLoop, hc]
      · simp only [stabilityLoop, Bool.not_eq_true] at h ⊢
        rw [if_neg (by simp [hc])] at h ⊢
        exact ih _ h

/-- The stability test spelled out over the pair indices. -/
theorem stableCheck_spec (md : Int) (l : List Int) (h : stableCheck md l = true) :
    ∀ j, 1 ≤ j → j ≤ 9 → l.getD (j - 1) 0 + md ≤ l.getD j 0 + 4 := by
  intro j h1 h9
  have hm : j ∈ List.range' 1 9 := by
    rw [List.mem_range'_1]
    omega
  have := (List.all_eq_true.mp h) j hm
  have hineq : l.getD (j - 1) 0 + md - l.getD j 0 - 4 ≤ 0 := of_decide_eq_true this
  omega

/-- C1: after inverse_quant either every adjacent LSP pair satisfies
lsp[j-1] + min_dist <= lsp[j] + 4 (min_dist 0x100 good / 0x200 bad), or
the output is the previous LSP vector verbatim (the loop itself is
capped at 10 passes by construction). -/
theorem c1_lsp_stability (T : Tables) (prev : List Int) (idx : List Nat) (bad : Bool) :
    (∀ j, 1 ≤ j → j ≤ 9 →
        (inverse_quant T prev idx bad).1.getD (j - 1) 0 + lspMinDist bad ≤
          (inverse_quant T prev idx bad).1.getD j 0 + 4) ∨
      (inverse_quant T prev idx bad).1 = prev := by
  unfold inverse_quant
  rcases hf : (stabilityLoop (lspMinDist bad) 10
      (lspAddPred T prev (lspPred bad) (lspVQ T (if bad then [0, 0, 0] else idx)))).2 with _ | _
  · right
    simp [hf]
  · left
    intro j h1 h9
    have hs := stabilityLoop_flag (lspMinDist bad) 10
      (lspAddPred T prev (lspPred bad) (lspVQ T (if bad then [0, 0, 0] else idx))) hf
    have := stableCheck_spec _ _ hs j h1 h9
    simpa [hf] using this

/-- C7: the combined-gain field decomposes as quotient/remainder by 24
after the dirac-train bit is consumed exactly when the rate is 6300 and
the half-frame pitch lag is below 58; the quotient bound is 85 in that
case and 170 otherwise, and an out-of-range quotient fails the unpack. -/
theorem c7_gain_decomposition (rate : Rate) (lag : Int) (temp : Nat) (sub : Subfrm)
    (_h12 : temp < 4096) :
    ((decodeGain rate lag temp sub).1.ad_cb_gain =
        (((if rate = Rate.r6300 ∧ lag < 58 then temp &&& 0x7FF else temp) / GAIN_LEVELS : Nat) : Int)) ∧
    ((decodeGain rate lag temp sub).1.dirac_train =
        (if rate = Rate.r6300 ∧ lag < 58 then ((temp >>> 11 : Nat) : Int) else 0)) ∧
    ((decodeGain rate lag temp sub).2 = true ↔
        (((if rate = Rate.r6300 ∧ lag < 58 then temp &&& 0x7FF else temp) / GAIN_LEVELS : Nat) : Int) <
          (if rate = Rate.r6300 ∧ lag < 58 then 85 else 170)) ∧
    ((decodeGain rate lag temp sub).2 = true →
        (decodeGain rate lag temp sub).1.amp_index =
          (((if rate = Rate.r6300 ∧ lag < 58 then temp &&& 0x7FF else temp) % GAIN_LEVELS : Nat) : Int)) := by
  have h58 : ((SUBFRAME_LEN : Int) - 2) = 58 := by decide
  by_cases hu : rate = Rate.r6300 ∧ lag < 58
  · by_cases hb : (((temp &&& 0x7FF : Nat) : Int)) / ((GAIN_LEVELS : Nat) : Int) < 85
    · exact ⟨by simp [decodeGain, h58, hu, hb], by simp [decodeGain, h58, hu, hb],
        by simp [decodeGain, h58, hu, hb], fun _ => by simp [decodeGain, h58, hu, hb]⟩
    · refine ⟨by simp [decodeGain, h58, hu, hb], by simp [decodeGain, h58, hu, hb],
        by simp [decodeGain, h58, hu, hb], fun hok => ?_⟩
      exfalso
      simp [decodeGain, h58, hu, hb] at hok
  · by_cases hb : ((temp : Int)) / ((GAIN_LEVELS : Nat) : Int) < 170
    · exact ⟨by simp [decodeGain, h58, hu, hb], by simp [decodeGain, h58, hu, hb],
        by simp [decodeGain, h58, hu, hb], fun _ => by simp [decodeGain, h58, hu, hb]⟩
    · refine ⟨by simp [decodeGain, h58, hu, hb], by simp [decodeGain, h58, hu, hb],
        by simp [decodeGain, h58, hu, hb], fun hok => ?_⟩
      exfalso
      simp [decodeGain, h58, hu, hb] at hok

/-- Witness for c7_gain_decomposition: rate 6300, lag 20 < 58, field
temp = 2500 (top bit clear; quotient 104 exceeds 85, failing). -/
theorem c7_witness :
    ((2500 : Nat) < 4096) ∧
      (((decodeGain Rate.r6300 20 2500 Subfrm.zero).1.ad_cb_gain =
          (((if Rate.r6300 = Rate.r6300 ∧ (20 : Int) < 58 then 2500 &&& 0x7FF else 2500) / GAIN_LEVELS : Nat) : Int)) ∧
        ((decodeGain Rate.r6300 20 2500 Subfrm.zero).1.dirac_train =
            (if Rate.r6300 = Rate.r6300 ∧ (20 : Int) < 58 then ((2500 >>> 11 : Nat) : Int) else 0)) ∧
        ((decodeGain Rate.r6300 20 2500 Subfrm.zero).2 = true ↔
            (((if Rate.r6300 = Rate.r6300 ∧ (20 : Int) < 58 then 2500 &&& 0x7FF else 2500) / GAIN_LEVELS : Nat) : Int) <
              (if Rate.r6300 = Rate.r6300 ∧ (20 : Int) < 58 then 85 else 170)) ∧
        ((decodeGain Rate.r6300 20 2500 Subfrm.zero).2 = true →
            (decodeGain Rate.r6300 20 2500 Subfrm.zero).1.amp_index =
              (((if Rate.r6300 = Rate.r6300 ∧ (20 : Int) < 58 then 2500 &&& 0x7FF else 2500) % GAIN_LEVELS : Nat) : Int))) :=
  ⟨by decide, c7_gain_decomposition Rate.r6300 20 2500 Subfrm.zero (by decide)⟩

/-- C10: the muting branch zeroes FRAME_LEN + LPC_ORDER = 250 output
samples although the frame carries exactly FRAME_LEN = 240, so its
highest written output index 249 lies past the 240-sample region. -/
theorem c10_mute_overwrite :
    muteOutputClearSamples = FRAME_LEN + LPC_ORDER ∧
      muteOutputClearSamples = 250 ∧
      FRAME_LEN = 240 ∧
      muteOutputClearSamples - 1 = 249 ∧
      FRAME_LEN ≤ muteOutputClearSamples - 1 := by decide

/-- C9: the decoder dereferences packet byte 0 for dec_mode before the
size check, so the zero-length packet is outside the function's domain
(modelled as none) even though the size check alone would have consumed
it. -/
theorem c9_empty_packet (T : Tables) (p : Ctx) :
    g723_1_decode_frame T p [] = none := rfl

/-- C8: a packet shorter than frame_size[dec_mode] produces no frame,
returns the whole packet length as consumed and leaves the context
untouched. -/
theorem c8_short_packet (T : Tables) (p : Ctx) (b0 : Nat) (bs : List Nat)
    (h : (b0 :: bs).length < frame_size (b0 % 4)) :
    g723_1_decode_frame T p (b0 :: bs) = some ⟨p, none, (b0 :: bs).length⟩ := by
  simp only [List.length_cons] at h
  simp [g723_1_decode_frame, h]

/-- Witness for c8_short_packet: a 1-byte packet with dec_mode 0
(required size 24). -/
theorem c8_witness :
    (([0] : List Nat).length < frame_size (0 % 4)) ∧
      g723_1_decode_frame zeroTables (g723_1_decode_init zeroTables) [0] =
        some ⟨g723_1_decode_init zeroTables, none, ([0] : List Nat).length⟩ :=
  ⟨by decide, c8_short_packet zeroTables (g723_1_decode_init zeroTables) 0 [] (by decide)⟩

/-- The output stage does not change past_frame_type. -/
theorem synthOutput_past (T : Tables) (p : Ctx) (rows : List (List Int))
    (src : List Int) (ret : Nat) :
    (synthOutput T p rows src ret).ctx.past_frame_type = p.past_frame_type := by
  cases hp : p.postfilter <;> simp [synthOutput, hp]

/-- The output stage does not change erased_frames. -/
theorem synthOutput_erased (T : Tables) (p : Ctx) (rows : List (List Int))
    (src : List Int) (ret : Nat) :
    (synthOutput T p rows src ret).ctx.erased_frames = p.erased_frames := by
  cases hp : p.postfilter <;> simp [synthOutput, hp]

/-- The output stage does not change prev_excitation. -/
theorem synthOutput_prevExc (T : Tables) (p : Ctx) (rows : List (List Int))
    (src : List Int) (ret : Nat) :
    (synthOutput T p rows src ret).ctx.prev_excitation = p.prev_excitation := by
  cases hp : p.postfilter <;> simp [synthOutput, hp]

/-- Every decode path stores the current frame type into
past_frame_type at the end of the active branch. -/
theorem activeDecode_past (T : Tables) (p : Ctx) (bad : Bool) (ret : Nat) :
    (activeDecode T p bad ret).ctx.past_frame_type = p.cur_frame_type := by
  cases bad with
  | false => simp [activeDecode, synthOutput_past]
  | true =>
      by_cases h3 : p.erased_frames = 3
      · simp [activeDecode, h3, synthOutput_past]
      · by_cases h2 : p.erased_frames = 2
        · simp [activeDecode, h3, h2, synthOutput_past]
        · have h23 : ¬ (p.erased_frames + 1 = 3) := by omega
          simp [activeDecode, h3, h23, synthOutput_past]

/-- On a bad active frame the erasure counter is incremented unless it
is already 3. -/
theorem activeDecode_erased_bad (T : Tables) (p : Ctx) (ret : Nat) :
    (activeDecode T p true ret).ctx.erased_frames =
      (if p.erased_frames = 3 then p.erased_frames else p.erased_frames + 1) := by
  by_cases h3 : p.erased_frames = 3
  · simp [activeDecode, h3, synthOutput_erased]
  · by_cases h2 : p.erased_frames = 2
    · simp [activeDecode, h3, h2, synthOutput_erased]
    · have h23 : ¬ (p.erased_frames + 1 = 3) := by omega
      simp [activeDecode, h3, h23, synthOutput_erased]

/-- The comfort-noise path stores the current frame type into
past_frame_type. -/
theorem cngDecode_past (T : Tables) (p : Ctx) (ret : Nat) :
    (cngDecode T p ret).ctx.past_frame_type = p.cur_frame_type := by
  by_cases h1 : p.cur_frame_type = FrameType.sid
  · simp [cngDecode, h1, synthOutput_past]
  · by_cases h2 : p.past_frame_type = FrameType.active
    · simp [cngDecode, h1, h2, synthOutput_past]
    · simp [cngDecode, h1, h2, synthOutput_past]

/-- The comfort-noise path never touches erased_frames. -/
theorem cngDecode_erased (T : Tables) (p : Ctx) (ret : Nat) :
    (cngDecode T p ret).ctx.erased_frames = p.erased_frames := by
  by_cases h1 : p.cur_frame_type = FrameType.sid
  · simp [cngDecode, h1, synthOutput_erased]
  · by_cases h2 : p.past_frame_type = FrameType.active
    · simp [cngDecode, h1, h2, synthOutput_erased]
    · simp [cngDecode, h1, h2, synthOutput_erased]

/-- C2: a packet failing the unpack checks (forbidden pitch lag or
out-of-range gain quotient) is treated as an erasure: with an ACTIVE
previous frame it is processed as an erased active frame whose counter
is incremented and capped at 3, otherwise it is promoted to an
UNTRANSMITTED frame and the counter is untouched. -/
theorem c2_bad_frame_erasure (T : Tables) (p : Ctx) (b0 : Nat) (bs : List Nat)
    (hsz : ¬ ((b0 :: bs).length < frame_size (b0 % 4)))
    (hbad : (unpack_bitstream (unpackInit p) (b0 :: bs)).ok = false)
    (hcap : p.erased_frames ≤ 3) :
    ((g723_1_decode_frame T p (b0 :: bs)).map (fun r => r.ctx.past_frame_type) =
        some (if p.past_frame_type = FrameType.active then FrameType.active
              else FrameType.untransmitted)) ∧
    ((g723_1_decode_frame T p (b0 :: bs)).map (fun r => r.ctx.erased_frames) =
        some (if p.past_frame_type = FrameType.active then min (p.erased_frames + 1) 3
              else p.erased_frames)) := by
  have hsz2 : ¬ (bs.length + 1 < frame_size (b0 % 4)) := by simpa using hsz
  by_cases hpast : p.past_frame_type = FrameType.active
  · constructor
    · simp [g723_1_decode_frame, hsz2, hbad, hpast, activeDecode_past]
    · by_cases h3 : p.erased_frames = 3
      · simp [g723_1_decode_frame, hsz2, hbad, hpast, activeDecode_erased_bad, h3]
      · simp [g723_1_decode_frame, hsz2, hbad, hpast, activeDecode_erased_bad, h3]
        omega
  · constructor
    · simp [g723_1_decode_frame, hsz2, hbad, hpast, cngDecode_past]
    · simp [g723_1_decode_frame, hsz2, hbad, hpast, cngDecode_erased]

/-- Witness for c2_bad_frame_erasure: the forbidden-pitch-lag packet
against the post-active initial state. -/
theorem c2_witness :
    (¬ (badPacket20.length < frame_size (badPacket20.headI % 4)) ∧
      (unpack_bitstream (unpackInit (activeState zeroTables)) badPacket20).ok = false ∧
      (activeState zeroTables).erased_frames ≤ 3) ∧
    (((g723_1_decode_frame zeroTables (activeState zeroTables) badPacket20).map
          (fun r => r.ctx.past_frame_type) =
        some (if (activeState zeroTables).past_frame_type = FrameType.active then FrameType.active
              else FrameType.untransmitted)) ∧
      ((g723_1_decode_frame zeroTables (activeState zeroTables) badPacket20).map
          (fun r => r.ctx.erased_frames) =
        some (if (activeState zeroTables).past_frame_type = FrameType.active then
                min ((activeState zeroTables).erased_frames + 1) 3
              else (activeState zeroTables).erased_frames))) :=
  ⟨⟨by decide, by decide, by decide⟩,
    c2_bad_frame_erasure zeroTables (activeState zeroTables) 0x01
      ([0, 0, 0xFC, 0x01] ++ List.replicate 15 0) (by decide) (by decide) (by decide)⟩

/-- The generated working excitation extends the previous excitation by
exactly one frame of samples. -/
theorem activeExcitation_length (T : Tables) (pe : List Int) (subs : List Subfrm)
    (lags : List Int) (rate : Rate) :
    (activeExcitation T pe subs lags rate).length = pe.length + FRAME_LEN := by
  have h4 : List.range SUBFRAMES = [0, 1, 2, 3] := by decide
  simp [activeExcitation, h4, FRAME_LEN, SUBFRAME_LEN]

/-- The working excitation begins with the previous excitation. -/
theorem activeExcitation_take (T : Tables) (pe : List Int) (subs : List Subfrm)
    (lags : List Int) (rate : Rate) :
    (activeExcitation T pe subs lags rate).take pe.length = pe := by
  have h4 : List.range SUBFRAMES = [0, 1, 2, 3] := by decide
  simp only [activeExcitation, h4, List.foldl_cons, List.foldl_nil]
  rw [List.append_assoc, List.append_assoc, List.append_assoc]
  exact List.take_left pe _

/-- The good (non-erased) active path saves the tail of the working
excitation as the new prev_excitation. -/
theorem activeDecode_prevExc_good (T : Tables) (q : Ctx) (ret : Nat) :
    (activeDecode T q false ret).ctx.prev_excitation =
      ((activeExcitation T q.prev_excitation q.subframe q.pitch_lag q.cur_rate).drop
          FRAME_LEN).take PITCH_MAX := by
  simp [activeDecode, synthOutput_prevExc]

/-- C5: after a successful (non-erased) active decode, prev_excitation
equals the last PITCH_MAX samples of the working excitation produced
for the frame; that excitation is FRAME_LEN samples longer than the
history, begins with the history, and any following frame's working
excitation begins with the saved samples. -/
theorem c5_excitation_continuity (T : Tables) (p : Ctx) (b0 : Nat) (bs : List Nat)
    (hsz : ¬ ((b0 :: bs).length < frame_size (b0 % 4)))
    (hok : (unpack_bitstream (unpackInit p) (b0 :: bs)).ok = true)
    (hact : (unpack_bitstream (unpackInit p) (b0 :: bs)).cur_frame_type = FrameType.active)
    (hpe : p.prev_excitation.length = PITCH_MAX) :
    ((g723_1_decode_frame T p (b0 :: bs)).map (fun r => r.ctx.prev_excitation) =
        some ((activeExcitation T p.prev_excitation
            (unpack_bitstream (unpackInit p) (b0 :: bs)).subframe
            (unpack_bitstream (unpackInit p) (b0 :: bs)).pitch_lag
            (unpack_bitstream (unpackInit p) (b0 :: bs)).cur_rate).drop FRAME_LEN)) ∧
      (activeExcitation T p.prev_excitation
          (unpack_bitstream (unpackInit p) (b0 :: bs)).subframe
          (unpack_bitstream (unpackInit p) (b0 :: bs)).pitch_lag
          (unpack_bitstream (unpackInit p) (b0 :: bs)).cur_rate).length =
        FRAME_LEN + PITCH_MAX ∧
      (activeExcitation T p.prev_excitation
          (unpack_bitstream (unpackInit p) (b0 :: bs)).subframe
          (unpack_bitstream (unpackInit p) (b0 :: bs)).pitch_lag
          (unpack_bitstream (unpackInit p) (b0 :: bs)).cur_rate).take PITCH_MAX =
        p.prev_excitation ∧
      (∀ subs2 lags2 rate2,
        (activeExcitation T
            ((activeExcitation T p.prev_excitation
                (unpack_bitstream (unpackInit p) (b0 :: bs)).subframe
                (unpack_bitstream (unpackInit p) (b0 :: bs)).pitch_lag
                (unpack_bitstream (unpackInit p) (b0 :: bs)).cur_rate).drop FRAME_LEN)
            subs2 lags2 rate2).take PITCH_MAX =
          (activeExcitation T p.prev_excitation
              (unpack_bitstream (unpackInit p) (b0 :: bs)).subframe
              (unpack_bitstream (unpackInit p) (b0 :: bs)).pitch_lag
              (unpack_bitstream (unpackInit p) (b0 :: bs)).cur_rate).drop FRAME_LEN) := by
  have hlen : (activeExcitation T p.prev_excitation
      (unpack_bitstream (unpackInit p) (b0 :: bs)).subframe
      (unpack_bitstream (unpackInit p) (b0 :: bs)).pitch_lag
      (unpack_bitstream (unpackInit p) (b0 :: bs)).cur_rate).length =
      FRAME_LEN + PITCH_MAX := by
    rw [activeExcitation_length, hpe]
    omega
  have hdroplen : ((activeExcitation T p.prev_excitation
      (unpack_bitstream (unpackInit p) (b0 :: bs)).subframe
      (unpack_bitstream (unpackInit p) (b0 :: bs)).pitch_lag
      (unpack_bitstream (unpackInit p) (b0 :: bs)).cur_rate).drop FRAME_LEN).length =
      PITCH_MAX := by
    rw [List.length_drop, hlen]
    omega
  have htake : (activeExcitation T p.prev_excitation
      (unpack_bitstream (unpackInit p) (b0 :: bs)).subframe
      (unpack_bitstream (unpackInit p) (b0 :: bs)).pitch_lag
      (unpack_bitstream (unpackInit p) (b0 :: bs)).cur_rate).take PITCH_MAX =
      p.prev_excitation := by
    rw [← hpe]
    exact activeExcitation_take T p.prev_excitation _ _ _
  refine ⟨?_, hlen, htake, ?_⟩
  · have hsz2 : ¬ (bs.length + 1 < frame_size (b0 % 4)) := by simpa using hsz
    simp [g723_1_decode_frame, hsz2, hok, hact, activeDecode_prevExc_good,
      List.take_of_length_le (le_of_eq hdroplen)]
  · intro subs2 lags2 rate2
    rw [← hdroplen]
    exact activeExcitation_take T _ subs2 lags2 rate2

/-- Witness for c5_excitation_continuity: the all-zero R5300 packet
against the post-active initial state. -/
theorem c5_witness :
    (¬ (goodPacket20.length < frame_size (goodPacket20.headI % 4)) ∧
      (unpack_bitstream (unpackInit (activeState zeroTables)) goodPacket20).ok = true ∧
      (unpack_bitstream (unpackInit (activeState zeroTables)) goodPacket20).cur_frame_type =
        FrameType.active ∧
      (activeState zeroTables).prev_excitation.length = PITCH_MAX) ∧
    ((g723_1_decode_frame zeroTables (activeState zeroTables) goodPacket20).map
        (fun r => r.ctx.prev_excitation) =
      some ((activeExcitation zeroTables (activeState zeroTables).prev_excitation
          (unpack_bitstream (unpackInit (activeState zeroTables)) goodPacket20).subframe
          (unpack_bitstream (unpackInit (activeState zeroTables)) goodPacket20).pitch_lag
          (unpack_bitstream (unpackInit (activeState zeroTables)) goodPacket20).cur_rate).drop
        FRAME_LEN)) :=
  ⟨⟨by decide, by decide, by decide, by decide⟩,
    (c5_excitation_continuity zeroTables (activeState zeroTables) 0x01 (List.replicate 19 0)
      (by decide) (by decide) (by decide) (by decide)).1⟩

/-- A dot product against an all-zero vector contributes nothing,
whatever the coefficients. -/
theorem foldl_add_zipWith_zero (l : List Int) (n : Nat) (c : Int) :
    (List.zipWith (fun a b => a * b) l (List.replicate n 0)).foldl (· + ·) c = c := by
  induction l generalizing n c with
  | nil => simp
  | cons a l ih =>
    cases n with
    | zero => simp
    | succ n => simp [List.replicate_succ, ih]

/-- The first synthesized sample over a zeroed history is the clipped
input sample, whatever the LPC coefficients. -/
theorem lpSynth_zero_head (row : List Int) (x : Int) (src : List Int) :
    lpSynth row (List.replicate LPC_ORDER 0) (x :: src) =
      clip_int16 x :: lpSynth row (clip_int16 x :: List.replicate 9 0) src := by
  have h9 : (List.replicate LPC_ORDER (0:Int)).take 9 = List.replicate 9 0 := rfl
  simp [lpSynth, foldl_add_zipWith_zero, asr, Int.zero_fdiv, h9]

/-- One frame-synthesis step over a zeroed memory, exposing the first
output sample. -/
theorem frameSynthGo_zero_head (row : List Int) (rows : List (List Int)) (x : Int)
    (src : List Int) :
    frameSynthGo (row :: rows) (List.replicate LPC_ORDER 0) (x :: src) =
      clip_int16 x ::
        (lpSynth row (clip_int16 x :: List.replicate 9 0) (src.take 59) ++
          frameSynthGo rows
            (((clip_int16 x ::
                lpSynth row (clip_int16 x :: List.replicate 9 0) (src.take 59)).reverse ++
              List.replicate LPC_ORDER 0).take LPC_ORDER)
            ((x :: src).drop SUBFRAME_LEN)) := by
  have h0 : (x :: src).take SUBFRAME_LEN = x :: src.take 59 := rfl
  conv_lhs => simp only [frameSynthGo]
  rw [h0, lpSynth_zero_head, List.cons_append]

/-- With the postfilter off and a silent synthesis memory, the first
output sample of the common output stage is the first source sample,
clipped and doubled — independently of the LPC rows. -/
theorem synthOutput_mute_head (T : Tables) (p : Ctx) (row : List Int)
    (rows : List (List Int)) (x : Int) (src : List Int) (ret : Nat)
    (hm : p.synth_mem = List.replicate LPC_ORDER 0)
    (hp : p.postfilter = false) :
    ((synthOutput T p (row :: rows) (x :: src) ret).output.getD []).headI =
      clip_int16 (2 * clip_int16 x) := by
  have h1 : (x :: src).take FRAME_LEN = x :: src.take 239 := rfl
  have h2 : (List.range LPC_ORDER).map
      (fun i => (List.replicate LPC_ORDER (0:Int)).getD i 0) = List.replicate LPC_ORDER 0 := by
    decide
  have h3 : ∀ (l : List Int), (List.replicate LPC_ORDER (0:Int) ++ l).drop LPC_ORDER = l :=
    fun l => List.drop_left' (by simp)
  have h4 : ∀ (y : Int) (l : List Int), (y :: l).take FRAME_LEN = y :: l.take 239 :=
    fun y l => rfl
  simp only [synthOutput, hm, hp, frameSynth, List.reverse_replicate, h1, h2,
    frameSynthGo_zero_head, List.append_assoc, List.cons_append, h3, h4,
    Bool.false_eq_true, if_false, Option.getD_some, List.map_cons, List.headI_cons]

/-- The three-erasure muting path: the decoder reports erasure count 3
and an all-zero prev_excitation, yet the first output sample is the
stale audio sample doubled, not zero. -/
theorem muteDecode_mute_path (T : Tables) (p : Ctx) (b0 : Nat) (bs : List Nat)
    (hsz : ¬ ((b0 :: bs).length < frame_size (b0 % 4)))
    (hok : (unpack_bitstream (unpackInit p) (b0 :: bs)).ok = false)
    (hpast : p.past_frame_type = FrameType.active)
    (he : p.erased_frames = 2)
    (hp : p.postfilter = false)
    (hm : p.synth_mem = List.replicate LPC_ORDER 0)
    (haud : p.audio = List.replicate LPC_ORDER 0 ++ 1000 :: List.replicate 388 0) :
    (g723_1_decode_frame T p (b0 :: bs)).map
        (fun r => (((r.output.getD []).headI), r.ctx.prev_excitation, r.ctx.erased_frames)) =
      some (2000, List.replicate PITCH_MAX (0:Int), 3) := by
  have hsz2 : ¬ (bs.length + 1 < frame_size (b0 % 4)) := by simpa using hsz
  have hdrop : (List.replicate LPC_ORDER (0:Int) ++ 1000 :: List.replicate 388 0).drop
      LPC_ORDER = 1000 :: List.replicate 388 0 := rfl
  have htk : ((1000 : Int) :: List.replicate 388 0).take FRAME_LEN =
      1000 :: (List.replicate 388 (0:Int)).take 239 := rfl
  have hclip : clip_int16 (2 * clip_int16 1000) = 2000 := by decide
  simp [-List.reduceReplicate, g723_1_decode_frame, hsz2, hok, hpast, he, hp, hm, haud,
    hdrop, htk, activeDecode, lsp_interpolate, synthOutput_mute_head, synthOutput_prevExc,
    synthOutput_erased, hclip]

/-- C3 (code bug): when the third consecutive erased active frame
triggers the muting branch, the decoder zeroes prev_excitation and the
erasure state, but the frame it outputs is not muted: the unconditional
LP synthesis that follows rebuilds the output from the stale audio
scratch, so a state with a leftover sample 1000 yields first output
sample 2000 — for every table instance — instead of the silence the
specification requires. -/
theorem c3_mute_branch_not_silent (T : Tables) :
    (g723_1_decode_frame T (muteState T) badPacket20).map
        (fun r => (((r.output.getD []).headI), r.ctx.prev_excitation, r.ctx.erased_frames)) =
      some (2000, List.replicate PITCH_MAX (0:Int), 3) :=
  muteDecode_mute_path T (muteState T) 0x01 ([0, 0, 0xFC, 0x01] ++ List.replicate 15 0)
    (by decide) rfl rfl rfl rfl rfl rfl

/-- The LP synthesis filter produces exactly one output per input. -/
theorem lpSynth_length (lpc : List Int) (src : List Int) : ∀ hist,
    (lpSynth lpc hist src).length = src.length := by
  induction src with
  | nil => intro hist; rfl
  | cons x src ih => intro hist; simp [lpSynth, ih]

/-- Length of the subframe-threaded synthesis. -/
theorem frameSynthGo_length (rows : List (List Int)) : ∀ hist src,
    (frameSynthGo rows hist src).length = min (SUBFRAME_LEN * rows.length) src.length := by
  induction rows with
  | nil => intro hist src; simp [frameSynthGo]
  | cons row rows ih =>
      intro hist src
      simp only [frameSynthGo, List.length_append, lpSynth_length, List.length_take,
        List.length_drop, ih, List.length_cons]
      simp only [SUBFRAME_LEN]
      omega

/-- Length of the full-frame synthesis. -/
theorem frameSynth_length (rows : List (List Int)) (mem src : List Int) :
    (frameSynth rows mem src).length = min (SUBFRAME_LEN * rows.length) src.length := by
  rw [frameSynth, frameSynthGo_length]

/-- With the postfilter off, the output stage keeps fir_mem. -/
theorem synthOutput_fir (T : Tables) (p : Ctx) (rows : List (List Int)) (src : List Int)
    (ret : Nat) (hp : p.postfilter = false) :
    (synthOutput T p rows src ret).ctx.fir_mem = p.fir_mem := by
  simp [synthOutput, hp]

/-- With the postfilter off, the output stage keeps iir_mem. -/
theorem synthOutput_iir (T : Tables) (p : Ctx) (rows : List (List Int)) (src : List Int)
    (ret : Nat) (hp : p.postfilter = false) :
    (synthOutput T p rows src ret).ctx.iir_mem = p.iir_mem := by
  simp [synthOutput, hp]

/-- With the postfilter off, the output stage keeps pf_gain. -/
theorem synthOutput_pfg (T : Tables) (p : Ctx) (rows : List (List Int)) (src : List Int)
    (ret : Nat) (hp : p.postfilter = false) :
    (synthOutput T p rows src ret).ctx.pf_gain = p.pf_gain := by
  simp [synthOutput, hp]

/-- With the postfilter off, the active path keeps fir_mem. -/
theorem activeDecode_fir (T : Tables) (p : Ctx) (bad : Bool) (ret : Nat)
    (hp : p.postfilter = false) :
    (activeDecode T p bad ret).ctx.fir_mem = p.fir_mem := by
  cases bad with
  | false => simp [activeDecode, synthOutput_fir, hp]
  | true =>
      by_cases h3 : p.erased_frames = 3
      · simp [activeDecode, h3, synthOutput_fir, hp]
      · by_cases h2 : p.erased_frames = 2
        · simp [activeDecode, h3, h2, synthOutput_fir, hp]
        · have h23 : ¬ (p.erased_frames + 1 = 3) := by omega
          simp [activeDecode, h3, h23, synthOutput_fir, hp]

/-- With the postfilter off, the active path keeps iir_mem. -/
theorem activeDecode_iir (T : Tables) (p : Ctx) (bad : Bool) (ret : Nat)
    (hp : p.postfilter = false) :
    (activeDecode T p bad ret).ctx.iir_mem = p.iir_mem := by
  cases bad with
  | false => simp [activeDecode, synthOutput_iir, hp]
  | true =>
      by_cases h3 : p.erased_frames = 3
      · simp [activeDecode, h3, synthOutput_iir, hp]
      · by_cases h2 : p.erased_frames = 2
        · simp [activeDecode, h3, h2, synthOutput_iir, hp]
        · have h23 : ¬ (p.erased_frames + 1 = 3) := by omega
          simp [activeDecode, h3, h23, synthOutput_iir, hp]

/-- With the postfilter off, the active path keeps pf_gain. -/
theorem activeDecode_pfg (T : Tables) (p : Ctx) (bad : Bool) (ret : Nat)
    (hp : p.postfilter = false) :
    (activeDecode T p bad ret).ctx.pf_gain = p.pf_gain := by
  cases bad with
  | false => simp [activeDecode, synthOutput_pfg, hp]
  | true =>
      by_cases h3 : p.erased_frames = 3
      · simp [activeDecode, h3, synthOutput_pfg, hp]
      · by_cases h2 : p.erased_frames = 2
        · simp [activeDecode, h3, h2, synthOutput_pfg, hp]
        · have h23 : ¬ (p.erased_frames + 1 = 3) := by omega
          simp [activeDecode, h3, h23, synthOutput_pfg, hp]

/-- With the postfilter off, the comfort-noise path keeps fir_mem. -/
theorem cngDecode_fir (T : Tables) (p : Ctx) (ret : Nat) (hp : p.postfilter = false) :
    (cngDecode T p ret).ctx.fir_mem = p.fir_mem := by
  by_cases h1 : p.cur_frame_type = FrameType.sid
  · simp [cngDecode, h1, synthOutput_fir, hp]
  · by_cases h2 : p.past_frame_type = FrameType.active
    · simp [cngDecode, h1, h2, synthOutput_fir, hp]
    · simp [cngDecode, h1, h2, synthOutput_fir, hp]

/-- With the postfilter off, the comfort-noise path keeps iir_mem. -/
theorem cngDecode_iir (T : Tables) (p : Ctx) (ret : Nat) (hp : p.postfilter = false) :
    (cngDecode T p ret).ctx.iir_mem = p.iir_mem := by
  by_cases h1 : p.cur_frame_type = FrameType.sid
  · simp [cngDecode, h1, synthOutput_iir, hp]
  · by_cases h2 : p.past_frame_type = FrameType.active
    · simp [cngDecode, h1, h2, synthOutput_iir, hp]
    · simp [cngDecode, h1, h2, synthOutput_iir, hp]

/-- With the postfilter off, the comfort-noise path keeps pf_gain. -/
theorem cngDecode_pfg (T : Tables) (p : Ctx) (ret : Nat) (hp : p.postfilter = false) :
    (cngDecode T p ret).ctx.pf_gain = p.pf_gain := by
  by_cases h1 : p.cur_frame_type = FrameType.sid
  · simp [cngDecode, h1, synthOutput_pfg, hp]
  · by_cases h2 : p.past_frame_type = FrameType.active
    · simp [cngDecode, h1, h2, synthOutput_pfg, hp]
    · simp [cngDecode, h1, h2, synthOutput_pfg, hp]

/-- With the postfilter off, the emitted samples are a function of the
LPC rows, the source window, the synthesis memory and the audio scratch
only. -/
theorem synthOutput_output_false (T : Tables) (p : Ctx) (rows : List (List Int))
    (src : List Int) (ret : Nat) (hp : p.postfilter = false) :
    (synthOutput T p rows src ret).output =
      some ((((((List.range LPC_ORDER).map (fun i => p.synth_mem.getD i 0)) ++
            frameSynth rows p.synth_mem (src.take FRAME_LEN) ++
            p.audio.drop (LPC_ORDER + FRAME_LEN)).drop LPC_ORDER).take FRAME_LEN).map
        (fun x => clip_int16 (2 * x))) := by
  simp [synthOutput, hp]

/-- The unpack seed only reads fields the formant postfilter does not
own. -/
theorem unpackInit_pf (p : Ctx) (f g : List Int) (h : Int) :
    unpackInit { p with fir_mem := f, iir_mem := g, pf_gain := h } = unpackInit p := rfl

/-- With the postfilter off, the active path's output is determined by
the fields other than fir_mem, iir_mem and pf_gain. -/
theorem activeDecode_output_fgh (T : Tables) (a b : Ctx) (bad : Bool) (ret : Nat)
    (hsub : a.subframe = b.subframe) (hcft : a.cur_frame_type = b.cur_frame_type)
    (_hpft : a.past_frame_type = b.past_frame_type) (hrate : a.cur_rate = b.cur_rate)
    (hlsp : a.lsp_index = b.lsp_index) (hlag : a.pitch_lag = b.pitch_lag)
    (her : a.erased_frames = b.erased_frames) (hplsp : a.prev_lsp = b.prev_lsp)
    (hslsp : a.sid_lsp = b.sid_lsp) (hpex : a.prev_excitation = b.prev_excitation)
    (hex : a.excitation = b.excitation) (hsm : a.synth_mem = b.synth_mem)
    (hrs : a.random_seed = b.random_seed) (_hcrs : a.cng_random_seed = b.cng_random_seed)
    (hii : a.interp_index = b.interp_index) (hig : a.interp_gain = b.interp_gain)
    (hsg : a.sid_gain = b.sid_gain) (hcg : a.cur_gain = b.cur_gain)
    (hrc : a.reflection_coef = b.reflection_coef) (haud : a.audio = b.audio)
    (hpf : a.postfilter = false) (hpf2 : b.postfilter = false) :
    (activeDecode T a bad ret).output = (activeDecode T b bad ret).output := by
  cases bad with
  | false =>
      simp [activeDecode, synthOutput_output_false, hsub, hcft, _hpft, hrate, hlsp, hlag,
        her, hplsp, hslsp, hpex, hex, hsm, hrs, _hcrs, hii, hig, hsg, hcg, hrc, haud,
        hpf, hpf2]
  | true =>
      by_cases h3 : b.erased_frames = 3
      · simp [activeDecode, h3, synthOutput_output_false, hsub, hcft, _hpft, hrate, hlsp,
          hlag, her, hplsp, hslsp, hpex, hex, hsm, hrs, _hcrs, hii, hig, hsg, hcg, hrc,
          haud, hpf, hpf2]
      · by_cases h2 : b.erased_frames = 2
        · simp [activeDecode, h3, h2, synthOutput_output_false, hsub, hcft, _hpft, hrate,
            hlsp, hlag, her, hplsp, hslsp, hpex, hex, hsm, hrs, _hcrs, hii, hig, hsg, hcg,
            hrc, haud, hpf, hpf2]
        · have h23 : ¬ (b.erased_frames + 1 = 3) := by omega
          simp [activeDecode, h3, h23, synthOutput_output_false, hsub, hcft, _hpft, hrate,
            hlsp, hlag, her, hplsp, hslsp, hpex, hex, hsm, hrs, _hcrs, hii, hig, hsg, hcg,
            hrc, haud, hpf, hpf2]

/-- With the postfilter off, the comfort-noise path's output is
determined by the fields other than fir_mem, iir_mem and pf_gain. -/
theorem cngDecode_output_fgh (T : Tables) (a b : Ctx) (ret : Nat)
    (hsub : a.subframe = b.subframe) (hcft : a.cur_frame_type = b.cur_frame_type)
    (_hpft : a.past_frame_type = b.past_frame_type) (hrate : a.cur_rate = b.cur_rate)
    (hlsp : a.lsp_index = b.lsp_index) (hlag : a.pitch_lag = b.pitch_lag)
    (her : a.erased_frames = b.erased_frames) (hplsp : a.prev_lsp = b.prev_lsp)
    (hslsp : a.sid_lsp = b.sid_lsp) (hpex : a.prev_excitation = b.prev_excitation)
    (hex : a.excitation = b.excitation) (hsm : a.synth_mem = b.synth_mem)
    (hrs : a.random_seed = b.random_seed) (_hcrs : a.cng_random_seed = b.cng_random_seed)
    (hii : a.interp_index = b.interp_index) (hig : a.interp_gain = b.interp_gain)
    (hsg : a.sid_gain = b.sid_gain) (hcg : a.cur_gain = b.cur_gain)
    (hrc : a.reflection_coef = b.reflection_coef) (haud : a.audio = b.audio)
    (hpf : a.postfilter = false) (hpf2 : b.postfilter = false) :
    (cngDecode T a ret).output = (cngDecode T b ret).output := by
  by_cases h1 : b.cur_frame_type = FrameType.sid
  · by_cases h2 : b.past_frame_type = FrameType.active
    · simp [cngDecode, h1, h2, synthOutput_output_false, hsub, hcft, _hpft, hrate, hlsp,
        hlag, her, hplsp, hslsp, hpex, hex, hsm, hrs, _hcrs, hii, hig, hsg, hcg, hrc,
        haud, hpf, hpf2]
    · simp [cngDecode, h1, h2, synthOutput_output_false, hsub, hcft, _hpft, hrate, hlsp,
        hlag, her, hplsp, hslsp, hpex, hex, hsm, hrs, _hcrs, hii, hig, hsg, hcg, hrc,
        haud, hpf, hpf2]
  · by_cases h2 : b.past_frame_type = FrameType.active
    · simp [cngDecode, h1, h2, synthOutput_output_false, hsub, hcft, _hpft, hrate, hlsp,
        hlag, her, hplsp, hslsp, hpex, hex, hsm, hrs, _hcrs, hii, hig, hsg, hcg, hrc,
        haud, hpf, hpf2]
    · simp [cngDecode, h1, h2, synthOutput_output_false, hsub, hcft, _hpft, hrate, hlsp,
        hlag, her, hplsp, hslsp, hpex, hex, hsm, hrs, _hcrs, hii, hig, hsg, hcg, hrc,
        haud, hpf, hpf2]

/-- With the postfilter off, the output stage emits the doubled, clipped
synthesis samples verbatim. -/
theorem synthOutput_bypass (T : Tables) (p : Ctx) (rows : List (List Int)) (src : List Int)
    (ret : Nat) (hp : p.postfilter = false) (hr : rows.length = SUBFRAMES)
    (hs : FRAME_LEN ≤ src.length) :
    (frameSynth rows p.synth_mem (src.take FRAME_LEN)).length = FRAME_LEN ∧
      (synthOutput T p rows src ret).output =
        some ((frameSynth rows p.synth_mem (src.take FRAME_LEN)).map
          (fun x => clip_int16 (2 * x))) := by
  have hs' : 240 ≤ src.length := hs
  have hsl : (frameSynth rows p.synth_mem (src.take FRAME_LEN)).length = FRAME_LEN := by
    rw [frameSynth_length, hr, List.length_take]
    simp only [SUBFRAME_LEN, SUBFRAMES, FRAME_LEN]
    omega
  refine ⟨hsl, ?_⟩
  have hm10 : ((List.range LPC_ORDER).map (fun i => p.synth_mem.getD i 0)).length =
      LPC_ORDER := by simp
  simp only [synthOutput, hp, Bool.false_eq_true, if_false, List.append_assoc]
  rw [List.drop_left' hm10, List.take_left' hsl]

/-- C6: with the postfilter disabled, (a) the output of the common
output stage is exactly clip_int16(2 * synth[i]) over the FRAME_LEN
samples of the LP synthesis output, (b) a decode of any packet leaves
fir_mem, iir_mem and pf_gain unchanged, and (c) the emitted output is
independent of the values of fir_mem, iir_mem and pf_gain. -/
theorem c6_postfilter_bypass (T : Tables) (p : Ctx) (hp : p.postfilter = false) :
    (∀ rows src ret, rows.length = SUBFRAMES → FRAME_LEN ≤ src.length →
        (frameSynth rows p.synth_mem (src.take FRAME_LEN)).length = FRAME_LEN ∧
          (synthOutput T p rows src ret).output =
            some ((frameSynth rows p.synth_mem (src.take FRAME_LEN)).map
              (fun x => clip_int16 (2 * x)))) ∧
      (∀ buf, (g723_1_decode_frame T p buf).map
            (fun r => (r.ctx.fir_mem, r.ctx.iir_mem, r.ctx.pf_gain)) =
          (g723_1_decode_frame T p buf).map
            (fun _ => (p.fir_mem, p.iir_mem, p.pf_gain))) ∧
      (∀ f g h buf,
        (g723_1_decode_frame T { p with fir_mem := f, iir_mem := g, pf_gain := h } buf).map
            (fun r => r.output) =
          (g723_1_decode_frame T p buf).map (fun r => r.output)) := by
  refine ⟨fun rows src ret hr hs => synthOutput_bypass T p rows src ret hp hr hs, ?_, ?_⟩
  · intro buf
    cases buf with
    | nil => rfl
    | cons b0 bs =>
        by_cases hsz : bs.length + 1 < frame_size (b0 % 4)
        · simp [g723_1_decode_frame, hsz]
        · simp only [g723_1_decode_frame, List.length_cons]
          rw [if_neg hsz]
          by_cases hc : (if (unpack_bitstream (unpackInit p) (b0 :: bs)).ok = true then
              (unpack_bitstream (unpackInit p) (b0 :: bs)).cur_frame_type
            else if p.past_frame_type = FrameType.active then FrameType.active
            else FrameType.untransmitted) = FrameType.active
          · rw [if_pos hc]
            simp only [Option.map_some']
            simp [activeDecode_fir, activeDecode_iir, activeDecode_pfg, hp]
          · rw [if_neg hc]
            simp only [Option.map_some']
            simp [cngDecode_fir, cngDecode_iir, cngDecode_pfg, hp]
  · intro f g h buf
    cases buf with
    | nil => rfl
    | cons b0 bs =>
        by_cases hsz : bs.length + 1 < frame_size (b0 % 4)
        · simp [g723_1_decode_frame, hsz]
        · simp only [g723_1_decode_frame, List.length_cons, unpackInit_pf]
          rw [if_neg hsz, if_neg hsz]
          by_cases hc : (if (unpack_bitstream (unpackInit p) (b0 :: bs)).ok = true then
              (unpack_bitstream (unpackInit p) (b0 :: bs)).cur_frame_type
            else if p.past_frame_type = FrameType.active then FrameType.active
            else FrameType.untransmitted) = FrameType.active
          · rw [if_pos hc, if_pos hc]
            simp only [Option.map_some']
            exact congrArg some (activeDecode_output_fgh T _ _ _ _ rfl rfl rfl rfl rfl rfl
              rfl rfl rfl rfl rfl rfl rfl rfl rfl rfl rfl rfl rfl rfl hp hp)
          · rw [if_neg hc, if_neg hc]
            simp only [Option.map_some']
            exact congrArg some (cngDecode_output_fgh T _ _ _ rfl rfl rfl rfl rfl rfl
              rfl rfl rfl rfl rfl rfl rfl rfl rfl rfl rfl rfl rfl rfl hp hp)

/-- Witness for c6_postfilter_bypass: the postfilter-off state with the
all-zero R5300 packet keeps its formant-postfilter memories. -/
theorem c6_witness :
    (muteState zeroTables).postfilter = false ∧
    ((g723_1_decode_frame zeroTables (muteState zeroTables) goodPacket20).map
        (fun r => (r.ctx.fir_mem, r.ctx.iir_mem, r.ctx.pf_gain)) =
      (g723_1_decode_frame zeroTables (muteState zeroTables) goodPacket20).map
        (fun _ => ((muteState zeroTables).fir_mem, (muteState zeroTables).iir_mem,
          (muteState zeroTables).pf_gain))) :=
  ⟨rfl, (c6_postfilter_bypass zeroTables (muteState zeroTables) rfl).2.1 goodPacket20⟩

end G7231
